import Mathlib

/-!
Verification development for the cubed-sphere layers of DLWP-CS
(src/DLWP/custom.py): the halo-padding layer CubeSpherePadding2D and the
face-grouped convolution layer CubeSphereConv2D.

The tensors of the source code have logical shape
(batch, channels, height, width, 6) with the face axis last.  Every
operation performed by CubeSpherePadding2D.call slices, reverses,
transposes and concatenates only along the height, width and face axes;
the batch and channel axes are carried through untouched.  We therefore
embed one face as a `Grid alpha` holding the two spatial axes, with the
element type `alpha` standing for the whole (batch x channel) fibre of a
grid point.  A cube-sphere tensor is a function `Fin 6 -> Grid alpha`.

Python slicing clips to the array bounds and treats `-0` as `0`; the
slice helpers below reproduce exactly that semantics, because the source
uses slices such as `inputs[:, :, -p:, :, 4]` and `out[3][:, :, p:2*p]`
whose behaviour for degenerate padding values matters to the claims.
-/

/-- One face of a cube-sphere tensor: a height x width grid.  `dat i j`
is the value at row `i`, column `j`; values outside the stated bounds are
junk that no theorem depends on. -/
structure Grid (α : Type) where
  h : Nat
  w : Nat
  dat : Nat → Nat → α

namespace Grid

variable {α : Type}

/-- Rows `[-p:]` in python semantics: for `p = 0` the full range (python
`-0` is `0`), otherwise the last `min p h` rows. -/
def lastRows (g : Grid α) (p : Nat) : Grid α :=
  let s := if p = 0 then 0 else g.h - min p g.h
  ⟨g.h - s, g.w, fun i j => g.dat (s + i) j⟩

/-- Rows `[:p]` in python semantics: the first `min p h` rows. -/
def firstRows (g : Grid α) (p : Nat) : Grid α :=
  ⟨min p g.h, g.w, fun i j => g.dat i j⟩

/-- Columns `[-p:]` in python semantics. -/
def lastCols (g : Grid α) (p : Nat) : Grid α :=
  let s := if p = 0 then 0 else g.w - min p g.w
  ⟨g.h, g.w - s, fun i j => g.dat i (s + j)⟩

/-- Columns `[:p]` in python semantics. -/
def firstCols (g : Grid α) (p : Nat) : Grid α :=
  ⟨g.h, min p g.w, fun i j => g.dat i j⟩

/-- Rows `[p:2*p]` in python semantics (both endpoints clipped). -/
def midRows (g : Grid α) (p : Nat) : Grid α :=
  ⟨min (2 * p) g.h - min p g.h, g.w, fun i j => g.dat (min p g.h + i) j⟩

/-- Rows `[-2*p:-p]` in python semantics; for `p = 0` this is `[0:0]`,
the empty range. -/
def negMidRows (g : Grid α) (p : Nat) : Grid α :=
  if p = 0 then ⟨0, g.w, fun i j => g.dat i j⟩
  else ⟨min (2 * p) g.h - min p g.h, g.w,
    fun i j => g.dat (g.h - min (2 * p) g.h + i) j⟩

/-- Reversal along the height axis (`[::-1]` on rows, `K.reverse(x, 2)`). -/
def revRows (g : Grid α) : Grid α :=
  ⟨g.h, g.w, fun i j => g.dat (g.h - 1 - i) j⟩

/-- Reversal along the width axis (`[::-1]` on columns, `K.reverse(x, 3)`). -/
def revCols (g : Grid α) : Grid α :=
  ⟨g.h, g.w, fun i j => g.dat i (g.w - 1 - j)⟩

/-- Spatial transpose, `tf.transpose(x, (0, 1, 3, 2))`. -/
def tr (g : Grid α) : Grid α :=
  ⟨g.w, g.h, fun i j => g.dat j i⟩

/-- Concatenation of three grids along the height axis
(`K.concatenate([a, b, c], axis=2)`).  The width recorded is the middle
grid's width; `vcat3Ok` states the shape condition the host framework
checks. -/
def vcat3 (a b c : Grid α) : Grid α :=
  ⟨a.h + b.h + c.h, b.w, fun i j =>
    if i < a.h then a.dat i j
    else if i < a.h + b.h then b.dat (i - a.h) j
    else c.dat (i - a.h - b.h) j⟩

/-- Concatenation of three grids along the width axis
(`K.concatenate([a, b, c], axis=3)`). -/
def hcat3 (a b c : Grid α) : Grid α :=
  ⟨b.h, a.w + b.w + c.w, fun i j =>
    if j < a.w then a.dat i j
    else if j < a.w + b.w then b.dat i (j - a.w)
    else c.dat i (j - a.w - b.w)⟩

/-- Shape condition enforced by the tensor framework for a height-axis
concatenation: all three parts share one width. -/
def vcat3Ok (a b c : Grid α) : Prop := a.w = b.w ∧ c.w = b.w

/-- Shape condition enforced by the tensor framework for a width-axis
concatenation: all three parts share one height. -/
def hcat3Ok (a b c : Grid α) : Prop := a.h = b.h ∧ c.h = b.h

instance (a b c : Grid α) : Decidable (vcat3Ok a b c) := by
  unfold vcat3Ok; infer_instance

instance (a b c : Grid α) : Decidable (hcat3Ok a b c) := by
  unfold hcat3Ok; infer_instance

end Grid

/-- All six faces of a cube-sphere tensor share the square shape
`n x n`.  (The docstring of CubeSpherePadding2D requires height equals
width implicitly through the transposed boundary exchanges.) -/
def Square {α : Type} (inp : Fin 6 → Grid α) (n : Nat) : Prop :=
  ∀ f : Fin 6, (inp f).h = n ∧ (inp f).w = n

instance {α : Type} (inp : Fin 6 → Grid α) (n : Nat) :
    Decidable (Square inp n) := by
  unfold Square; infer_instance

section Padding

variable {α : Type}

/-!
First pass of CubeSpherePadding2D.call: pad the upper and lower (height)
boundaries of every face.  Each `oK` below is the literal translation of
the K.concatenate expression building `out[K]` in the source, with
`inputs[:, :, a, b, f]` rendered through the slice helpers above and
`tr = (0, 1, 3, 2)` rendered as `Grid.tr`.
-/

/-- Face 0, height pass: `[inputs[:, :, -p:, :, 4]; inputs[..., 0];
inputs[:, :, :p, :, 5]]` along the height axis. -/
def o0 (p : Nat) (inp : Fin 6 → Grid α) : Grid α :=
  Grid.vcat3 ((inp 4).lastRows p) (inp 0) ((inp 5).firstRows p)

/-- Face 1, height pass: top strip `transpose(inputs[:, :, ::-1, -p:, 4])`,
bottom strip `transpose(reverse(inputs[:, :, :, -p:, 5], 3))`. -/
def o1 (p : Nat) (inp : Fin 6 → Grid α) : Grid α :=
  Grid.vcat3 (((inp 4).revRows.lastCols p).tr) (inp 1)
    (((inp 5).lastCols p).revCols.tr)

/-- Face 2, height pass: top strip `reverse(inputs[:, :, :p, ::-1, 4], 2)`,
bottom strip `reverse(inputs[:, :, -p:, ::-1, 5], 2)`. -/
def o2 (p : Nat) (inp : Fin 6 → Grid α) : Grid α :=
  Grid.vcat3 (((inp 4).revCols.firstRows p).revRows) (inp 2)
    (((inp 5).revCols.lastRows p).revRows)

/-- Face 3, height pass: top strip `transpose(reverse(inputs[:, :, :, :p, 4], 3))`,
bottom strip `transpose(inputs[:, :, ::-1, :p, 5])`. -/
def o3 (p : Nat) (inp : Fin 6 → Grid α) : Grid α :=
  Grid.vcat3 (((inp 4).firstCols p).revCols.tr) (inp 3)
    (((inp 5).revRows.firstCols p).tr)

/-- Face 4 (south pole), height pass: top strip
`reverse(inputs[:, :, :p, ::-1, 2], 2)`, bottom strip `inputs[:, :, :p, :, 0]`. -/
def o4 (p : Nat) (inp : Fin 6 → Grid α) : Grid α :=
  Grid.vcat3 (((inp 2).revCols.firstRows p).revRows) (inp 4)
    ((inp 0).firstRows p)

/-- Face 5 (north pole), height pass: top strip `inputs[:, :, -p:, :, 0]`,
bottom strip `reverse(inputs[:, :, -p:, ::-1, 2], 2)`. -/
def o5 (p : Nat) (inp : Fin 6 → Grid α) : Grid α :=
  Grid.vcat3 ((inp 0).lastRows p) (inp 5)
    (((inp 2).revCols.lastRows p).revRows)

/-- The intermediate tensor `out1` of the source: all six faces after the
height pass. -/
def out1 (p : Nat) (inp : Fin 6 → Grid α) : Fin 6 → Grid α :=
  ![o0 p inp, o1 p inp, o2 p inp, o3 p inp, o4 p inp, o5 p inp]

/-!
Second pass: pad the left and right (width) boundaries.  Faces 0 to 3
read lateral strips from `out1`; faces 4 and 5 read from the already
width-padded faces `out[3]` and `out[1]` of this very pass.
-/

/-- Face 0, width pass: `[out1[:, :, :, -p:, 3]; out1[..., 0];
out1[:, :, :, :p, 1]]` along the width axis. -/
def q0 (p : Nat) (o : Fin 6 → Grid α) : Grid α :=
  Grid.hcat3 ((o 3).lastCols p) (o 0) ((o 1).firstCols p)

/-- Face 1, width pass. -/
def q1 (p : Nat) (o : Fin 6 → Grid α) : Grid α :=
  Grid.hcat3 ((o 0).lastCols p) (o 1) ((o 2).firstCols p)

/-- Face 2, width pass. -/
def q2 (p : Nat) (o : Fin 6 → Grid α) : Grid α :=
  Grid.hcat3 ((o 1).lastCols p) (o 2) ((o 3).firstCols p)

/-- Face 3, width pass. -/
def q3 (p : Nat) (o : Fin 6 → Grid α) : Grid α :=
  Grid.hcat3 ((o 2).lastCols p) (o 3) ((o 0).firstCols p)

/-- Face 4, width pass: left strip
`transpose(reverse(out[3][:, :, p:2*p, :, 0], 2))`, right strip
`transpose(out[1][:, :, p:2*p, ::-1, 0])`, where `out[3]` and `out[1]`
are the width-padded faces of this pass. -/
def q4 (p : Nat) (o : Fin 6 → Grid α) : Grid α :=
  Grid.hcat3 (((q3 p o).midRows p).revRows.tr) (o 4)
    (((q1 p o).revCols.midRows p).tr)

/-- Face 5, width pass: left strip
`transpose(out[3][:, :, -2*p:-p, ::-1, 0])`, right strip
`transpose(reverse(out[1][:, :, -2*p:-p, :, 0], 2))`. -/
def q5 (p : Nat) (o : Fin 6 → Grid α) : Grid α :=
  Grid.hcat3 (((q3 p o).revCols.negMidRows p).tr) (o 5)
    (((q1 p o).negMidRows p).revRows.tr)

/-- The padded cube: the face `f` of the output of
CubeSpherePadding2D.call with halo width `p`. -/
def padFace (p : Nat) (inp : Fin 6 → Grid α) : Fin 6 → Grid α :=
  let o := out1 p inp
  ![q0 p o, q1 p o, q2 p o, q3 p o, q4 p o, q5 p o]

/-- The list of six faces that the final `K.concatenate(out, axis=-1)`
of the source stacks along the face axis, in order. -/
def padList (p : Nat) (inp : Fin 6 → Grid α) : List (Grid α) :=
  [padFace p inp 0, padFace p inp 1, padFace p inp 2,
   padFace p inp 3, padFace p inp 4, padFace p inp 5]

/-- Every shape condition the tensor framework checks while executing
CubeSpherePadding2D.call: the six height-axis concatenations of pass one,
the six width-axis concatenations of pass two, and the final stack along
the face axis (all six padded faces share one shape).  The source itself
performs no explicit validation; a violated condition here is exactly a
shape error raised by the framework, and `padOk` holding means the call
returns without error. -/
def padOk (p : Nat) (inp : Fin 6 → Grid α) : Prop :=
  (Grid.vcat3Ok ((inp 4).lastRows p) (inp 0) ((inp 5).firstRows p)) ∧
  (Grid.vcat3Ok (((inp 4).revRows.lastCols p).tr) (inp 1)
    (((inp 5).lastCols p).revCols.tr)) ∧
  (Grid.vcat3Ok (((inp 4).revCols.firstRows p).revRows) (inp 2)
    (((inp 5).revCols.lastRows p).revRows)) ∧
  (Grid.vcat3Ok (((inp 4).firstCols p).revCols.tr) (inp 3)
    (((inp 5).revRows.firstCols p).tr)) ∧
  (Grid.vcat3Ok (((inp 2).revCols.firstRows p).revRows) (inp 4)
    ((inp 0).firstRows p)) ∧
  (Grid.vcat3Ok ((inp 0).lastRows p) (inp 5)
    (((inp 2).revCols.lastRows p).revRows)) ∧
  (let o := out1 p inp
   (Grid.hcat3Ok ((o 3).lastCols p) (o 0) ((o 1).firstCols p)) ∧
   (Grid.hcat3Ok ((o 0).lastCols p) (o 1) ((o 2).firstCols p)) ∧
   (Grid.hcat3Ok ((o 1).lastCols p) (o 2) ((o 3).firstCols p)) ∧
   (Grid.hcat3Ok ((o 2).lastCols p) (o 3) ((o 0).firstCols p)) ∧
   (Grid.hcat3Ok (((q3 p o).midRows p).revRows.tr) (o 4)
     (((q1 p o).revCols.midRows p).tr)) ∧
   (Grid.hcat3Ok (((q3 p o).revCols.negMidRows p).tr) (o 5)
     (((q1 p o).negMidRows p).revRows.tr))) ∧
  (∀ f : Fin 6, (padFace p inp f).h = (padFace p inp 0).h ∧
    (padFace p inp f).w = (padFace p inp 0).w)

instance (p : Nat) (inp : Fin 6 → Grid α) : Decidable (padOk p inp) := by
  unfold padOk; infer_instance

end Padding

/-! Cube topology.

The adjacency table below is the one implicitly encoded by the slice and
transform choices of the two passes of CubeSpherePadding2D.call: the
entry for (face, edge) records which face the halo strip of that edge is
read from, which edge of that neighbour supplies it, and how the strip
is reoriented.  The theorems relating `padFace` to `nbr` prove that this
table is indeed the one the code realises.
-/

/-- An edge of a face's 2D grid. -/
inductive Edge : Type
  | top
  | bottom
  | left
  | right
deriving DecidableEq, Repr

instance : Fintype Edge :=
  ⟨⟨{Edge.top, Edge.bottom, Edge.left, Edge.right}, by decide⟩,
   fun e => by cases e <;> decide⟩

/-- Reorientation applied to a neighbour's boundary strip before
concatenation: `ident` none, `rev` a reversal along the shared edge,
`transpose` an axis swap (the neighbour's edge runs along the other
spatial axis), `transposeRev` both. -/
inductive Transform : Type
  | ident
  | rev
  | transpose
  | transposeRev
deriving DecidableEq, Repr

/-- As a reorientation of an edge strip (a depth coordinate pointing
away from the shared edge and an along-edge coordinate), each transform
is an involution: undoing an axis swap is the same axis swap, undoing an
along-edge reversal is the same reversal.  Hence every transform is its
own inverse. -/
def Transform.inverse : Transform → Transform
  | .ident => .ident
  | .rev => .rev
  | .transpose => .transpose
  | .transposeRev => .transposeRev

/-- Whether the transform reverses the along-edge coordinate. -/
def Transform.hasRev : Transform → Bool
  | .rev => true
  | .transposeRev => true
  | _ => false

/-- One adjacency entry: which face and edge supply a halo strip, and
how the strip is reoriented. -/
structure AdjEntry : Type where
  face : Fin 6
  edge : Edge
  transform : Transform
deriving DecidableEq, Repr

/-- The 24-entry adjacency table of the cube topology, read off from the
slice expressions of CubeSpherePadding2D.call (height pass for top and
bottom edges, width pass for left and right edges). -/
def nbr (f : Fin 6) (e : Edge) : AdjEntry :=
  match e with
  | .top => ![⟨4, .bottom, .ident⟩, ⟨4, .right, .transposeRev⟩,
      ⟨4, .top, .rev⟩, ⟨4, .left, .transpose⟩,
      ⟨2, .top, .rev⟩, ⟨0, .bottom, .ident⟩] f
  | .bottom => ![⟨5, .top, .ident⟩, ⟨5, .right, .transpose⟩,
      ⟨5, .bottom, .rev⟩, ⟨5, .left, .transposeRev⟩,
      ⟨0, .top, .ident⟩, ⟨2, .bottom, .rev⟩] f
  | .left => ![⟨3, .right, .ident⟩, ⟨0, .right, .ident⟩,
      ⟨1, .right, .ident⟩, ⟨2, .right, .ident⟩,
      ⟨3, .top, .transpose⟩, ⟨3, .bottom, .transposeRev⟩] f
  | .right => ![⟨1, .left, .ident⟩, ⟨2, .left, .ident⟩,
      ⟨3, .left, .ident⟩, ⟨0, .left, .ident⟩,
      ⟨1, .top, .transposeRev⟩, ⟨1, .bottom, .transpose⟩] f

/-- Position, in the padded face, of the halo cell of edge `e` at depth
`k` (counted from 1 at the cell adjacent to the face) and along-edge
coordinate `a`, for a face of size `n` and halo width `p`. -/
def haloPos (n p : Nat) (e : Edge) (k a : Nat) : Nat × Nat :=
  match e with
  | .top => (p - k, p + a)
  | .bottom => (p + n - 1 + k, p + a)
  | .left => (p + a, p - k)
  | .right => (p + a, p + n - 1 + k)

/-- Position, inside the supplying neighbour face of size `n`, of the
cell that fills the halo cell at depth `k` and along-edge coordinate `a`:
depth `k` outside the requesting face reads depth `k - 1` inside the
neighbour's edge `e2`, with the along-edge coordinate reversed when the
transform reverses it. -/
def srcPos (n : Nat) (e2 : Edge) (rv : Bool) (k a : Nat) : Nat × Nat :=
  let a2 := if rv then n - 1 - a else a
  match e2 with
  | .top => (k - 1, a2)
  | .bottom => (n - k, a2)
  | .left => (a2, k - 1)
  | .right => (a2, n - k)


/-! Two-hop corner tracing.

The corner halo blocks have no single geometric neighbour: tracing from a
corner cell requires two hops through the adjacency table, and the result
depends on whether the height edge or the width edge is crossed first.
The functions below perform that trace independently of the padding code,
using only the table `nbr`: coordinates are integers in the face frame
(negative or at least `n` means outside the face), `hopRow`/`hopCol`
cross the out-of-range height/width edge, and the second hop crosses
whichever coordinate the first hop left out of range.
-/

/-- Position of the cell that fills an out-of-range coordinate, integer
version of `srcPos`: depth `k` outside the requesting face reads depth
`k - 1` inside the neighbour edge `e2`. -/
def srcPosInt (n : Nat) (e2 : Edge) (rv : Bool) (k a : Int) : Int × Int :=
  let a2 : Int := match rv with
    | true => (n : Int) - 1 - a
    | false => a
  match e2 with
  | .top => (k - 1, a2)
  | .bottom => ((n : Int) - k, a2)
  | .left => (a2, k - 1)
  | .right => (a2, (n : Int) - k)

/-- Cross the height edge that the row coordinate `r` exceeds. -/
def hopRow (n : Nat) (f : Fin 6) (r c : Int) : Fin 6 × Int × Int :=
  if r < 0 then
    ((nbr f .top).face,
      srcPosInt n (nbr f .top).edge (nbr f .top).transform.hasRev (-r) c)
  else
    ((nbr f .bottom).face,
      srcPosInt n (nbr f .bottom).edge (nbr f .bottom).transform.hasRev
        (r - n + 1) c)

/-- Cross the width edge that the column coordinate `c` exceeds. -/
def hopCol (n : Nat) (f : Fin 6) (r c : Int) : Fin 6 × Int × Int :=
  if c < 0 then
    ((nbr f .left).face,
      srcPosInt n (nbr f .left).edge (nbr f .left).transform.hasRev (-c) r)
  else
    ((nbr f .right).face,
      srcPosInt n (nbr f .right).edge (nbr f .right).transform.hasRev
        (c - n + 1) r)

/-- Second hop: cross whichever coordinate is still out of range; the
identity when the position already lies inside the face. -/
def hopAny (n : Nat) (s : Fin 6 × Int × Int) : Fin 6 × Int × Int :=
  if s.2.1 < 0 ∨ (n : Int) ≤ s.2.1 then hopRow n s.1 s.2.1 s.2.2
  else if s.2.2 < 0 ∨ (n : Int) ≤ s.2.2 then hopCol n s.1 s.2.1 s.2.2
  else s

/-- Read the input tensor at a face and integer position (assumed in
range after resolution). -/
def gridAtInt {α : Type} (inp : Fin 6 → Grid α) (s : Fin 6 × Int × Int) : α :=
  (inp s.1).dat s.2.1.toNat s.2.2.toNat

/-- Two-hop corner trace crossing the width (left or right) edge first:
the value the adjacency table assigns to the face-frame position
`(r, c)` when both coordinates are out of range. -/
def cornerTraceW {α : Type} (inp : Fin 6 → Grid α) (n : Nat) (f : Fin 6)
    (r c : Int) : α :=
  gridAtInt inp (hopAny n (hopCol n f r c))

/-- Two-hop corner trace crossing the height (top or bottom) edge
first. -/
def cornerTraceH {α : Type} (inp : Fin 6 → Grid α) (n : Nat) (f : Fin 6)
    (r c : Int) : α :=
  gridAtInt inp (hopAny n (hopRow n f r c))

/-! Constructor model of CubeSpherePadding2D.

ZeroPadding3D normalises the `padding` argument (an int, a triple of
ints, or a triple of pairs) to three pairs; CubeSpherePadding2D then
rejects unequal height/width padding and unequal opposite-edge padding,
and overwrites the face-axis component with `(0, 0)`.
-/

/-- One component of a ZeroPadding3D padding argument: a bare int
(symmetric) or an explicit pair. -/
inductive PadDim : Type
  | single (a : Nat)
  | pair (a b : Nat)
deriving DecidableEq, Repr

/-- The padding argument accepted by ZeroPadding3D: one int for all
axes, or one component per axis. -/
inductive PadArg : Type
  | int (a : Nat)
  | triple (d1 d2 d3 : PadDim)
deriving DecidableEq, Repr

/-- `conv_utils.normalize_tuple` on one component. -/
def normDim : PadDim → Nat × Nat
  | .single a => (a, a)
  | .pair a b => (a, b)

/-- The normalised three-pair padding ZeroPadding3D.__init__ stores. -/
def padNorm : PadArg → (Nat × Nat) × (Nat × Nat) × (Nat × Nat)
  | .int a => ((a, a), (a, a), (a, a))
  | .triple d1 d2 d3 => (normDim d1, normDim d2, normDim d3)

/-- CubeSpherePadding2D.__init__ after the ZeroPadding3D normalisation:
raise ValueError when the height and width paddings differ or when the
height padding is unequal on opposite edges; otherwise keep the two
spatial components and force the face-axis component to `(0, 0)`. -/
def padInit (arg : PadArg) :
    Except String ((Nat × Nat) × (Nat × Nat) × (Nat × Nat)) :=
  let padding := padNorm arg
  if padding.1 ≠ padding.2.1 then
    Except.error
      ("CubeSpherePadding2D must have the same padding in the height and width dimensions")
  else if padding.1.1 ≠ padding.1.2 then
    Except.error ("CubeSpherePadding2D must have equal padding on opposite edges")
  else Except.ok (padding.1, padding.2.1, (0, 0))

/-! CubeSphereConv2D.

A tensor entering the convolution layer is embedded per face as a
`CTensor`: channels before the two spatial axes (the layer accepts only
the channels-first layout).  `conv2d` is K.conv2d specialised to valid
padding with arbitrary stride and dilation; the per-face outputs of
`csConvCall` follow CubeSphereConv2D.call line by line.
-/

/-- One face of a channels-first tensor: `dat c i j` is the value of
channel `c` at row `i`, column `j`. -/
structure CTensor : Type where
  chans : Nat
  h : Nat
  w : Nat
  dat : Nat → Nat → Nat → Int

/-- Reversal along the height axis, `K.reverse(x, -2)` on a
`(batch, channels, height, width)` tensor. -/
def CTensor.revRows (x : CTensor) : CTensor :=
  ⟨x.chans, x.h, x.w, fun c i j => x.dat c (x.h - 1 - i) j⟩

/-- Reversal along the width axis (the last axis). -/
def CTensor.revCols (x : CTensor) : CTensor :=
  ⟨x.chans, x.h, x.w, fun c i j => x.dat c i (x.w - 1 - j)⟩

/-- Elementwise map (the activation function applied by the layer). -/
def CTensor.map (g : Int → Int) (x : CTensor) : CTensor :=
  ⟨x.chans, x.h, x.w, fun c i j => g (x.dat c i j)⟩

/-- Static configuration of CubeSphereConv2D. -/
structure ConvConfig : Type where
  filters : Nat
  kh : Nat
  kw : Nat
  sh : Nat
  sw : Nat
  dh : Nat
  dw : Nat
  useBias : Bool
  flipNorthPole : Bool
  independentNorthPole : Bool

/-- The kernels and biases built by CubeSphereConv2D.build; a kernel is
indexed `(kernel row, kernel column, input channel, output channel)`. -/
structure ConvWeights : Type where
  equatorialKernel : Nat → Nat → Nat → Nat → Int
  polarKernel : Nat → Nat → Nat → Nat → Int
  northPoleKernel : Nat → Nat → Nat → Nat → Int
  equatorialBias : Nat → Int
  polarBias : Nat → Int
  northPoleBias : Nat → Int

/-- The effective dilated extent of a kernel axis. -/
def dilExt (k d : Nat) : Nat := k + (k - 1) * (d - 1)

/-- K.conv2d with valid padding, channels-first: output channel `fo` at
`(i, j)` sums the kernel window over all input channels starting at the
strided position, stepping by the dilation. -/
def conv2d (x : CTensor) (ker : Nat → Nat → Nat → Nat → Int)
    (cfg : ConvConfig) : CTensor :=
  ⟨cfg.filters,
   (x.h + cfg.sh - dilExt cfg.kh cfg.dh) / cfg.sh,
   (x.w + cfg.sw - dilExt cfg.kw cfg.dw) / cfg.sw,
   fun fo i j =>
     ∑ c ∈ Finset.range x.chans, ∑ a ∈ Finset.range cfg.kh,
       ∑ b ∈ Finset.range cfg.kw,
         x.dat c (i * cfg.sh + a * cfg.dh) (j * cfg.sw + b * cfg.dw) *
           ker a b c fo⟩

/-- K.bias_add, channels-first: add `bias fo` to every grid point of
output channel `fo`. -/
def biasAdd (x : CTensor) (bias : Nat → Int) : CTensor :=
  ⟨x.chans, x.h, x.w, fun fo i j => x.dat fo i j + bias fo⟩

/-- One plain per-face convolution with an optional bias, the building
block CubeSphereConv2D.call applies to each face. -/
def convFace (cfg : ConvConfig) (x : CTensor)
    (ker : Nat → Nat → Nat → Nat → Int) (bias : Nat → Int) : CTensor :=
  let y := conv2d x ker cfg
  if cfg.useBias then biasAdd y bias else y

/-- CubeSphereConv2D.call: faces 0 to 3 convolve with the equatorial
kernel, face 4 with the polar kernel, and face 5 with the north-pole
kernel when `independentNorthPole` (the polar kernel otherwise), with
the face reversed along the height axis before the convolution and the
convolved output reversed along the height axis again when
`flipNorthPole`.  The six outputs are stacked in face order and the
activation `act` is applied elementwise. -/
def csConvCall (cfg : ConvConfig) (wt : ConvWeights) (act : Int → Int)
    (inp : Fin 6 → CTensor) : Fin 6 → CTensor :=
  let northKer := if cfg.independentNorthPole then wt.northPoleKernel
    else wt.polarKernel
  let northBias := if cfg.independentNorthPole then wt.northPoleBias
    else wt.polarBias
  let face5 :=
    if cfg.flipNorthPole then
      (convFace cfg (inp 5).revRows northKer northBias).revRows
    else convFace cfg (inp 5) northKer northBias
  fun f =>
    CTensor.map act
      (![convFace cfg (inp 0) wt.equatorialKernel wt.equatorialBias,
         convFace cfg (inp 1) wt.equatorialKernel wt.equatorialBias,
         convFace cfg (inp 2) wt.equatorialKernel wt.equatorialBias,
         convFace cfg (inp 3) wt.equatorialKernel wt.equatorialBias,
         convFace cfg (inp 4) wt.polarKernel wt.polarBias,
         face5] f)

/-- What the specification asserts for face 5 (modelled from the spec,
for comparison with the code): reverse the face along its WIDTH axis,
convolve, and reverse the output along its width axis again. -/
def specFace5 (cfg : ConvConfig) (wt : ConvWeights) (act : Int → Int)
    (inp : Fin 6 → CTensor) : CTensor :=
  let northKer := if cfg.independentNorthPole then wt.northPoleKernel
    else wt.polarKernel
  let northBias := if cfg.independentNorthPole then wt.northPoleBias
    else wt.polarBias
  let face5 :=
    if cfg.flipNorthPole then
      (convFace cfg (inp 5).revCols northKer northBias).revCols
    else convFace cfg (inp 5) northKer northBias
  CTensor.map act face5

/-! Shape arithmetic and constructor checks of CubeSphereConv2D. -/

/-- The padding modes of the convolution layer. -/
inductive PaddingMode : Type
  | valid
  | same
deriving DecidableEq, Repr

/-- `conv_utils.conv_output_length` of keras (python semantics: `None`
propagates; floor division). -/
def convOutputLength (inputLength : Option Int) (filterSize : Nat)
    (pm : PaddingMode) (stride : Nat) (dilation : Nat) : Option Int :=
  match inputLength with
  | none => none
  | some l =>
    let dk : Int := (filterSize : Int) +
      ((filterSize : Int) - 1) * ((dilation : Int) - 1)
    let outLength : Int := match pm with
      | .same => l
      | .valid => l - dk + 1
    some ((outLength + stride - 1) / stride)

/-- CubeSphereConv2D.compute_output_shape for the channels-first branch:
`(batch, filters, conv(h), conv(w), 6)`. -/
def computeOutputShape (cfg : ConvConfig) (pm : PaddingMode)
    (shape : Option Int × Option Int × Option Int × Option Int × Option Int) :
    Option Int × Option Int × Option Int × Option Int × Option Int :=
  (shape.1, some (cfg.filters : Int),
   convOutputLength shape.2.2.1 cfg.kh pm cfg.sh cfg.dh,
   convOutputLength shape.2.2.2.1 cfg.kw pm cfg.sw cfg.dw,
   some 6)

/-- Python str.lower on the characters of a string (the ASCII
lowercasing normalize_data_format applies to the data_format names). -/
def strLower (s : String) : String := ⟨s.data.map Char.toLower⟩

/-- `backend.normalize_data_format`: default when absent, lowercase,
reject anything that is not channels_first or channels_last. -/
def normalizeDataFormat (value : Option String) (imageDataFormat : String) :
    Except String String :=
  let v := strLower (value.getD imageDataFormat)
  if v = "channels_first" ∨ v = "channels_last" then Except.ok v
  else Except.error ("The data_format argument must be one of channels_first or channels_last")

/-- The data-format acceptance of CubeSphereConv2D.__init__: normalise,
then reject every layout other than channels_first. -/
def convInitDataFormat (value : Option String) (imageDataFormat : String) :
    Except String String :=
  match normalizeDataFormat value imageDataFormat with
  | Except.error e => Except.error e
  | Except.ok d =>
    if d ≠ "channels_first" then
      Except.error ("CubeSphereConv2D must have channels_first order")
    else Except.ok d

/-- CubeSphereConv2D.build on a channels-first input shape (a list of
optional dimensions): fail when the channel dimension (index 1) is
unresolved, otherwise return it; the kernels are only allocated after
this check passes. -/
def convBuildChannelDim (inputShape : List (Option Nat)) :
    Except String Nat :=
  match inputShape.getD 1 none with
  | none => Except.error ("The channel dimension of the inputs should be defined")
  | some c => Except.ok c

/-! Concrete inputs used by counterexamples and witnesses. -/

/-- The synthetic tensor of the halo-correctness property: face `i`
holds the constant value `i`. -/
def constCube (n : Nat) : Fin 6 → Grid Nat :=
  fun f => ⟨n, n, fun _ _ => f.val⟩

/-- Six 1 x 1 faces with pairwise distinct values. -/
def cexInp1 : Fin 6 → Grid Nat :=
  fun f => ⟨1, 1, fun i j => 100 * f.val + 10 * i + j⟩

/-- Six 1 x 2 faces: height 1, width 2. -/
def cexRect : Fin 6 → Grid Nat :=
  fun f => ⟨1, 2, fun i j => 100 * f.val + 10 * i + j⟩

/-- Six 2 x 2 faces with pairwise distinct values everywhere. -/
def brick : Fin 6 → Grid Nat :=
  fun f => ⟨2, 2, fun i j => 100 * f.val + 10 * i + j⟩

/-- The identity activation (`linear`). -/
def idAct : Int → Int := fun x => x

/-- A 2-row, 1-column kernel configuration with the north-pole flip
enabled, one filter, no bias, stride and dilation 1. -/
def exCfgFlip : ConvConfig :=
  ⟨1, 2, 1, 1, 1, 1, 1, false, true, false⟩

/-- Weights whose equatorial and polar kernels select the top row of
the 2 x 1 window. -/
def exWt : ConvWeights :=
  ⟨fun a _ _ _ => if a = 0 then 1 else 0,
   fun a _ _ _ => if a = 0 then 1 else 0,
   fun _ _ _ _ => 0, fun _ => 0, fun _ => 0, fun _ => 0⟩

/-- Six identical one-channel 2 x 2 faces holding 1, 2, 3, 4. -/
def exInp : Fin 6 → CTensor :=
  fun _ => ⟨1, 2, 2, fun _ i j => 1 + 2 * (i : Int) + (j : Int)⟩

/-- The configuration of the end-to-end shape example: 3 x 3 kernel,
4 filters, stride 1, dilation 1. -/
def exCfg8 : ConvConfig :=
  ⟨4, 3, 3, 1, 1, 1, 1, true, true, false⟩

/-- Six identical two-channel 10 x 10 faces (the halo-padded faces of
the worked shape example). -/
def exInp10 : Fin 6 → CTensor :=
  fun _ => ⟨2, 10, 10, fun c i j => (c : Int) + i + j⟩


/-! Pointwise characterisation of the two passes. -/

section ZoneLemmas

variable {α : Type} (p n : Nat) (inp : Fin 6 → Grid α)

theorem out1_app0 : out1 p inp 0 = o0 p inp := rfl
theorem out1_app1 : out1 p inp 1 = o1 p inp := rfl
theorem out1_app2 : out1 p inp 2 = o2 p inp := rfl
theorem out1_app3 : out1 p inp 3 = o3 p inp := rfl
theorem out1_app4 : out1 p inp 4 = o4 p inp := rfl
theorem out1_app5 : out1 p inp 5 = o5 p inp := rfl

theorem padFace_app0 : padFace p inp 0 = q0 p (out1 p inp) := rfl
theorem padFace_app1 : padFace p inp 1 = q1 p (out1 p inp) := rfl
theorem padFace_app2 : padFace p inp 2 = q2 p (out1 p inp) := rfl
theorem padFace_app3 : padFace p inp 3 = q3 p (out1 p inp) := rfl
theorem padFace_app4 : padFace p inp 4 = q4 p (out1 p inp) := rfl
theorem padFace_app5 : padFace p inp 5 = q5 p (out1 p inp) := rfl

theorem o0_h (hp : 1 ≤ p) (hpn : p ≤ n) (hsq : Square inp n) :
    (o0 p inp).h = n + 2 * p := by
  obtain ⟨h4, w4⟩ := hsq 4
  obtain ⟨h0, w0⟩ := hsq 0
  obtain ⟨h5, w5⟩ := hsq 5
  have hne : ¬ p = 0 := by omega
  simp only [o0, Grid.vcat3, Grid.lastRows, Grid.firstRows, h4, h0, h5,
    if_neg hne]
  omega

theorem o1_h (hp : 1 ≤ p) (hpn : p ≤ n) (hsq : Square inp n) :
    (o1 p inp).h = n + 2 * p := by
  obtain ⟨h4, w4⟩ := hsq 4
  obtain ⟨h1, w1⟩ := hsq 1
  obtain ⟨h5, w5⟩ := hsq 5
  have hne : ¬ p = 0 := by omega
  simp only [o1, Grid.vcat3, Grid.tr, Grid.lastCols, Grid.revRows,
    Grid.revCols, h4, h1, h5, w4, w5, if_neg hne]
  omega

theorem o2_h (hp : 1 ≤ p) (hpn : p ≤ n) (hsq : Square inp n) :
    (o2 p inp).h = n + 2 * p := by
  obtain ⟨h4, w4⟩ := hsq 4
  obtain ⟨h2, w2⟩ := hsq 2
  obtain ⟨h5, w5⟩ := hsq 5
  have hne : ¬ p = 0 := by omega
  simp only [o2, Grid.vcat3, Grid.firstRows, Grid.lastRows, Grid.revRows,
    Grid.revCols, h4, h2, h5, w4, w5, if_neg hne]
  omega

theorem o3_h (hp : 1 ≤ p) (hpn : p ≤ n) (hsq : Square inp n) :
    (o3 p inp).h = n + 2 * p := by
  obtain ⟨h4, w4⟩ := hsq 4
  obtain ⟨h3, w3⟩ := hsq 3
  obtain ⟨h5, w5⟩ := hsq 5
  have hne : ¬ p = 0 := by omega
  simp only [o3, Grid.vcat3, Grid.tr, Grid.firstCols, Grid.revRows,
    Grid.revCols, h4, h3, h5, w4, w5, if_neg hne]
  omega

theorem o4_h (hp : 1 ≤ p) (hpn : p ≤ n) (hsq : Square inp n) :
    (o4 p inp).h = n + 2 * p := by
  obtain ⟨h2, w2⟩ := hsq 2
  obtain ⟨h4, w4⟩ := hsq 4
  obtain ⟨h0, w0⟩ := hsq 0
  have hne : ¬ p = 0 := by omega
  simp only [o4, Grid.vcat3, Grid.firstRows, Grid.revRows, Grid.revCols,
    h2, h4, h0, w2, if_neg hne]
  omega

theorem o5_h (hp : 1 ≤ p) (hpn : p ≤ n) (hsq : Square inp n) :
    (o5 p inp).h = n + 2 * p := by
  obtain ⟨h0, w0⟩ := hsq 0
  obtain ⟨h5, w5⟩ := hsq 5
  obtain ⟨h2, w2⟩ := hsq 2
  have hne : ¬ p = 0 := by omega
  simp only [o5, Grid.vcat3, Grid.lastRows, Grid.revRows, Grid.revCols,
    h0, h5, h2, w2, if_neg hne]
  omega

theorem o0_w (hsq : Square inp n) : (o0 p inp).w = n := by
  simp only [o0, Grid.vcat3]
  exact (hsq 0).2

theorem o1_w (hsq : Square inp n) : (o1 p inp).w = n := by
  simp only [o1, Grid.vcat3]
  exact (hsq 1).2

theorem o2_w (hsq : Square inp n) : (o2 p inp).w = n := by
  simp only [o2, Grid.vcat3]
  exact (hsq 2).2

theorem o3_w (hsq : Square inp n) : (o3 p inp).w = n := by
  simp only [o3, Grid.vcat3]
  exact (hsq 3).2

theorem o4_w (hsq : Square inp n) : (o4 p inp).w = n := by
  simp only [o4, Grid.vcat3]
  exact (hsq 4).2

theorem o5_w (hsq : Square inp n) : (o5 p inp).w = n := by
  simp only [o5, Grid.vcat3]
  exact (hsq 5).2

theorem out1_h (hp : 1 ≤ p) (hpn : p ≤ n) (hsq : Square inp n)
    (f : Fin 6) : (out1 p inp f).h = n + 2 * p := by
  rcases f with ⟨fv, hfv⟩
  interval_cases fv
  · exact o0_h p n inp hp hpn hsq
  · exact o1_h p n inp hp hpn hsq
  · exact o2_h p n inp hp hpn hsq
  · exact o3_h p n inp hp hpn hsq
  · exact o4_h p n inp hp hpn hsq
  · exact o5_h p n inp hp hpn hsq

theorem out1_w (hp : 1 ≤ p) (hpn : p ≤ n) (hsq : Square inp n)
    (f : Fin 6) : (out1 p inp f).w = n := by
  rcases f with ⟨fv, hfv⟩
  interval_cases fv
  · exact o0_w p n inp hsq
  · exact o1_w p n inp hsq
  · exact o2_w p n inp hsq
  · exact o3_w p n inp hsq
  · exact o4_w p n inp hsq
  · exact o5_w p n inp hsq

theorem o0_dat (hp : 1 ≤ p) (hpn : p ≤ n) (hsq : Square inp n)
    (i j : Nat) (hi : i < n + 2 * p) :
    (o0 p inp).dat i j =
      if i < p then (inp 4).dat (n - p + i) j
      else if i < p + n then (inp 0).dat (i - p) j
      else (inp 5).dat (i - p - n) j := by
  obtain ⟨h4, w4⟩ := hsq 4
  obtain ⟨h0, w0⟩ := hsq 0
  obtain ⟨h5, w5⟩ := hsq 5
  have hne : ¬ p = 0 := by omega
  simp only [o0, Grid.vcat3, Grid.lastRows, Grid.firstRows, h4, h0, h5,
    if_neg hne]
  have e1 : min p n = p := by omega
  have e2 : n - (n - p) = p := by omega
  rw [e1, e2]

theorem o1_dat (hp : 1 ≤ p) (hpn : p ≤ n) (hsq : Square inp n)
    (i j : Nat) (hi : i < n + 2 * p) :
    (o1 p inp).dat i j =
      if i < p then (inp 4).dat (n - 1 - j) (n - p + i)
      else if i < p + n then (inp 1).dat (i - p) j
      else (inp 5).dat j (n - 1 - (i - p - n)) := by
  obtain ⟨h4, w4⟩ := hsq 4
  obtain ⟨h1, w1⟩ := hsq 1
  obtain ⟨h5, w5⟩ := hsq 5
  have hne : ¬ p = 0 := by omega
  simp only [o1, Grid.vcat3, Grid.tr, Grid.lastCols, Grid.revRows,
    Grid.revCols, h4, h1, h5, w4, w5, if_neg hne]
  have e1 : min p n = p := by omega
  have e2 : n - (n - p) = p := by omega
  rw [e1, e2]
  split_ifs <;> first | rfl | (congr 1 <;> omega)

theorem o2_dat (hp : 1 ≤ p) (hpn : p ≤ n) (hsq : Square inp n)
    (i j : Nat) (hi : i < n + 2 * p) :
    (o2 p inp).dat i j =
      if i < p then (inp 4).dat (p - 1 - i) (n - 1 - j)
      else if i < p + n then (inp 2).dat (i - p) j
      else (inp 5).dat (n - 1 - (i - p - n)) (n - 1 - j) := by
  obtain ⟨h4, w4⟩ := hsq 4
  obtain ⟨h2, w2⟩ := hsq 2
  obtain ⟨h5, w5⟩ := hsq 5
  have hne : ¬ p = 0 := by omega
  simp only [o2, Grid.vcat3, Grid.firstRows, Grid.lastRows, Grid.revRows,
    Grid.revCols, h4, h2, h5, w4, w5, if_neg hne]
  have e1 : min p n = p := by omega
  have e2 : n - (n - p) = p := by omega
  rw [e1, e2]
  split_ifs <;> first | rfl | (congr 1 <;> omega)

theorem o3_dat (hp : 1 ≤ p) (hpn : p ≤ n) (hsq : Square inp n)
    (i j : Nat) (hi : i < n + 2 * p) :
    (o3 p inp).dat i j =
      if i < p then (inp 4).dat j (p - 1 - i)
      else if i < p + n then (inp 3).dat (i - p) j
      else (inp 5).dat (n - 1 - j) (i - p - n) := by
  obtain ⟨h4, w4⟩ := hsq 4
  obtain ⟨h3, w3⟩ := hsq 3
  obtain ⟨h5, w5⟩ := hsq 5
  have hne : ¬ p = 0 := by omega
  simp only [o3, Grid.vcat3, Grid.tr, Grid.firstCols, Grid.revRows,
    Grid.revCols, h4, h3, h5, w4, w5, if_neg hne]
  have e1 : min p n = p := by omega
  rw [e1]

theorem o4_dat (hp : 1 ≤ p) (hpn : p ≤ n) (hsq : Square inp n)
    (i j : Nat) (hi : i < n + 2 * p) :
    (o4 p inp).dat i j =
      if i < p then (inp 2).dat (p - 1 - i) (n - 1 - j)
      else if i < p + n then (inp 4).dat (i - p) j
      else (inp 0).dat (i - p - n) j := by
  obtain ⟨h2, w2⟩ := hsq 2
  obtain ⟨h4, w4⟩ := hsq 4
  obtain ⟨h0, w0⟩ := hsq 0
  have hne : ¬ p = 0 := by omega
  simp only [o4, Grid.vcat3, Grid.firstRows, Grid.revRows, Grid.revCols,
    h2, h4, h0, w2, if_neg hne]
  have e1 : min p n = p := by omega
  rw [e1]

theorem o5_dat (hp : 1 ≤ p) (hpn : p ≤ n) (hsq : Square inp n)
    (i j : Nat) (hi : i < n + 2 * p) :
    (o5 p inp).dat i j =
      if i < p then (inp 0).dat (n - p + i) j
      else if i < p + n then (inp 5).dat (i - p) j
      else (inp 2).dat (n - 1 - (i - p - n)) (n - 1 - j) := by
  obtain ⟨h0, w0⟩ := hsq 0
  obtain ⟨h5, w5⟩ := hsq 5
  obtain ⟨h2, w2⟩ := hsq 2
  have hne : ¬ p = 0 := by omega
  simp only [o5, Grid.vcat3, Grid.lastRows, Grid.revRows, Grid.revCols,
    h0, h5, h2, w2, if_neg hne]
  have e1 : min p n = p := by omega
  have e2 : n - (n - p) = p := by omega
  rw [e1, e2]
  split_ifs <;> first | rfl | (congr 1 <;> omega)

theorem q0_h (hp : 1 ≤ p) (hpn : p ≤ n) (hsq : Square inp n) :
    (q0 p (out1 p inp)).h = n + 2 * p := by
  simp only [q0, Grid.hcat3]
  exact out1_h p n inp hp hpn hsq 0

theorem q1_h (hp : 1 ≤ p) (hpn : p ≤ n) (hsq : Square inp n) :
    (q1 p (out1 p inp)).h = n + 2 * p := by
  simp only [q1, Grid.hcat3]
  exact out1_h p n inp hp hpn hsq 1

theorem q2_h (hp : 1 ≤ p) (hpn : p ≤ n) (hsq : Square inp n) :
    (q2 p (out1 p inp)).h = n + 2 * p := by
  simp only [q2, Grid.hcat3]
  exact out1_h p n inp hp hpn hsq 2

theorem q3_h (hp : 1 ≤ p) (hpn : p ≤ n) (hsq : Square inp n) :
    (q3 p (out1 p inp)).h = n + 2 * p := by
  simp only [q3, Grid.hcat3]
  exact out1_h p n inp hp hpn hsq 3

theorem q0_w (hp : 1 ≤ p) (hpn : p ≤ n) (hsq : Square inp n) :
    (q0 p (out1 p inp)).w = n + 2 * p := by
  have hw3 := out1_w p n inp hp hpn hsq 3
  have hw0 := out1_w p n inp hp hpn hsq 0
  have hw1 := out1_w p n inp hp hpn hsq 1
  have hne : ¬ p = 0 := by omega
  simp only [q0, Grid.hcat3, Grid.lastCols, Grid.firstCols, hw3, hw0, hw1,
    if_neg hne]
  omega

theorem q1_w (hp : 1 ≤ p) (hpn : p ≤ n) (hsq : Square inp n) :
    (q1 p (out1 p inp)).w = n + 2 * p := by
  have hw0 := out1_w p n inp hp hpn hsq 0
  have hw1 := out1_w p n inp hp hpn hsq 1
  have hw2 := out1_w p n inp hp hpn hsq 2
  have hne : ¬ p = 0 := by omega
  simp only [q1, Grid.hcat3, Grid.lastCols, Grid.firstCols, hw0, hw1, hw2,
    if_neg hne]
  omega

theorem q2_w (hp : 1 ≤ p) (hpn : p ≤ n) (hsq : Square inp n) :
    (q2 p (out1 p inp)).w = n + 2 * p := by
  have hw1 := out1_w p n inp hp hpn hsq 1
  have hw2 := out1_w p n inp hp hpn hsq 2
  have hw3 := out1_w p n inp hp hpn hsq 3
  have hne : ¬ p = 0 := by omega
  simp only [q2, Grid.hcat3, Grid.lastCols, Grid.firstCols, hw1, hw2, hw3,
    if_neg hne]
  omega

theorem q3_w (hp : 1 ≤ p) (hpn : p ≤ n) (hsq : Square inp n) :
    (q3 p (out1 p inp)).w = n + 2 * p := by
  have hw2 := out1_w p n inp hp hpn hsq 2
  have hw3 := out1_w p n inp hp hpn hsq 3
  have hw0 := out1_w p n inp hp hpn hsq 0
  have hne : ¬ p = 0 := by omega
  simp only [q3, Grid.hcat3, Grid.lastCols, Grid.firstCols, hw2, hw3, hw0,
    if_neg hne]
  omega

theorem q4_h (hp : 1 ≤ p) (hpn : p ≤ n) (hsq : Square inp n) :
    (q4 p (out1 p inp)).h = n + 2 * p := by
  simp only [q4, Grid.hcat3]
  exact out1_h p n inp hp hpn hsq 4

theorem q5_h (hp : 1 ≤ p) (hpn : p ≤ n) (hsq : Square inp n) :
    (q5 p (out1 p inp)).h = n + 2 * p := by
  simp only [q5, Grid.hcat3]
  exact out1_h p n inp hp hpn hsq 5

theorem q4_w (hp : 1 ≤ p) (hpn : p ≤ n) (hsq : Square inp n) :
    (q4 p (out1 p inp)).w = n + 2 * p := by
  have hq3h := q3_h p n inp hp hpn hsq
  have hq1h := q1_h p n inp hp hpn hsq
  have hw4 := out1_w p n inp hp hpn hsq 4
  simp only [q4, Grid.hcat3, Grid.tr, Grid.revRows, Grid.revCols,
    Grid.midRows, hq3h, hq1h, hw4]
  omega

theorem q5_w (hp : 1 ≤ p) (hpn : p ≤ n) (hsq : Square inp n) :
    (q5 p (out1 p inp)).w = n + 2 * p := by
  have hq3h := q3_h p n inp hp hpn hsq
  have hq1h := q1_h p n inp hp hpn hsq
  have hw5 := out1_w p n inp hp hpn hsq 5
  have hne : ¬ p = 0 := by omega
  simp only [q5, Grid.hcat3, Grid.tr, Grid.revRows, Grid.revCols,
    Grid.negMidRows, hq3h, hq1h, hw5, if_neg hne]
  omega

theorem q0_dat (hp : 1 ≤ p) (hpn : p ≤ n) (hsq : Square inp n)
    (i j : Nat) :
    (q0 p (out1 p inp)).dat i j =
      if j < p then (out1 p inp 3).dat i (n - p + j)
      else if j < p + n then (out1 p inp 0).dat i (j - p)
      else (out1 p inp 1).dat i (j - p - n) := by
  have hw3 := out1_w p n inp hp hpn hsq 3
  have hw0 := out1_w p n inp hp hpn hsq 0
  have hw1 := out1_w p n inp hp hpn hsq 1
  have hne : ¬ p = 0 := by omega
  simp only [q0, Grid.hcat3, Grid.lastCols, Grid.firstCols, hw3, hw0, hw1,
    if_neg hne]
  have e1 : min p n = p := by omega
  have e2 : n - (n - p) = p := by omega
  rw [e1, e2]

theorem q1_dat (hp : 1 ≤ p) (hpn : p ≤ n) (hsq : Square inp n)
    (i j : Nat) :
    (q1 p (out1 p inp)).dat i j =
      if j < p then (out1 p inp 0).dat i (n - p + j)
      else if j < p + n then (out1 p inp 1).dat i (j - p)
      else (out1 p inp 2).dat i (j - p - n) := by
  have hw0 := out1_w p n inp hp hpn hsq 0
  have hw1 := out1_w p n inp hp hpn hsq 1
  have hw2 := out1_w p n inp hp hpn hsq 2
  have hne : ¬ p = 0 := by omega
  simp only [q1, Grid.hcat3, Grid.lastCols, Grid.firstCols, hw0, hw1, hw2,
    if_neg hne]
  have e1 : min p n = p := by omega
  have e2 : n - (n - p) = p := by omega
  rw [e1, e2]

theorem q2_dat (hp : 1 ≤ p) (hpn : p ≤ n) (hsq : Square inp n)
    (i j : Nat) :
    (q2 p (out1 p inp)).dat i j =
      if j < p then (out1 p inp 1).dat i (n - p + j)
      else if j < p + n then (out1 p inp 2).dat i (j - p)
      else (out1 p inp 3).dat i (j - p - n) := by
  have hw1 := out1_w p n inp hp hpn hsq 1
  have hw2 := out1_w p n inp hp hpn hsq 2
  have hw3 := out1_w p n inp hp hpn hsq 3
  have hne : ¬ p = 0 := by omega
  simp only [q2, Grid.hcat3, Grid.lastCols, Grid.firstCols, hw1, hw2, hw3,
    if_neg hne]
  have e1 : min p n = p := by omega
  have e2 : n - (n - p) = p := by omega
  rw [e1, e2]

theorem q3_dat (hp : 1 ≤ p) (hpn : p ≤ n) (hsq : Square inp n)
    (i j : Nat) :
    (q3 p (out1 p inp)).dat i j =
      if j < p then (out1 p inp 2).dat i (n - p + j)
      else if j < p + n then (out1 p inp 3).dat i (j - p)
      else (out1 p inp 0).dat i (j - p - n) := by
  have hw2 := out1_w p n inp hp hpn hsq 2
  have hw3 := out1_w p n inp hp hpn hsq 3
  have hw0 := out1_w p n inp hp hpn hsq 0
  have hne : ¬ p = 0 := by omega
  simp only [q3, Grid.hcat3, Grid.lastCols, Grid.firstCols, hw2, hw3, hw0,
    if_neg hne]
  have e1 : min p n = p := by omega
  have e2 : n - (n - p) = p := by omega
  rw [e1, e2]

theorem q4_dat (hp : 1 ≤ p) (hpn : p ≤ n) (hsq : Square inp n)
    (i j : Nat) :
    (q4 p (out1 p inp)).dat i j =
      if j < p then (q3 p (out1 p inp)).dat (2 * p - 1 - j) i
      else if j < p + n then (out1 p inp 4).dat i (j - p)
      else (q1 p (out1 p inp)).dat (j - n) (n + 2 * p - 1 - i) := by
  have hq3h := q3_h p n inp hp hpn hsq
  have hq1h := q1_h p n inp hp hpn hsq
  have hq1w := q1_w p n inp hp hpn hsq
  have hw4 := out1_w p n inp hp hpn hsq 4
  simp only [q4, Grid.hcat3, Grid.tr, Grid.revRows, Grid.revCols,
    Grid.midRows, hq3h, hq1h, hq1w, hw4]
  have e3 : min p (n + 2 * p) = p := by omega
  have e4 : min (2 * p) (n + 2 * p) = 2 * p := by omega
  have e5 : 2 * p - p = p := by omega
  rw [e3, e4, e5]
  split_ifs <;> first | rfl | (congr 1 <;> omega) | (exfalso; omega)

theorem q5_dat (hp : 1 ≤ p) (hpn : p ≤ n) (hsq : Square inp n)
    (i j : Nat) (hj : j < n + 2 * p) :
    (q5 p (out1 p inp)).dat i j =
      if j < p then (q3 p (out1 p inp)).dat (n + j) (n + 2 * p - 1 - i)
      else if j < p + n then (out1 p inp 5).dat i (j - p)
      else (q1 p (out1 p inp)).dat (n + p - 1 - (j - p - n)) i := by
  have hq3h := q3_h p n inp hp hpn hsq
  have hq3w := q3_w p n inp hp hpn hsq
  have hq1h := q1_h p n inp hp hpn hsq
  have hw5 := out1_w p n inp hp hpn hsq 5
  have hne : ¬ p = 0 := by omega
  simp only [q5, Grid.hcat3, Grid.tr, Grid.revRows, Grid.revCols,
    Grid.negMidRows, hq3h, hq3w, hq1h, hw5, if_neg hne]
  have e3 : min p (n + 2 * p) = p := by omega
  have e4 : min (2 * p) (n + 2 * p) = 2 * p := by omega
  have e5 : 2 * p - p = p := by omega
  have e6 : n + 2 * p - 2 * p = n := by omega
  rw [e3, e4, e5, e6]
  split_ifs <;> first | rfl | (congr 1 <;> omega) | (exfalso; omega)

theorem Grid.dat_congr {β : Type} (g : Grid β) {i i2 j j2 : Nat}
    (hi : i = i2) (hj : j = j2) : g.dat i j = g.dat i2 j2 := by
  rw [hi, hj]

/-- General halo characterisation: every non-corner halo cell of the
padded cube, addressed by face, edge, depth `k` (1 at the cell touching
the face, up to `p`) and along-edge coordinate `a`, holds exactly the
input value of the neighbour face designated by the adjacency table
`nbr`, at the position given by the neighbour edge and the reversal bit
of the recorded transform. -/
theorem pad_halo_char (hp : 1 ≤ p) (hpn : p ≤ n) (hsq : Square inp n)
    (f : Fin 6) (e : Edge) (k a : Nat)
    (hk1 : 1 ≤ k) (hkp : k ≤ p) (ha : a < n) :
    (padFace p inp f).dat (haloPos n p e k a).1 (haloPos n p e k a).2 =
      (inp (nbr f e).face).dat
        (srcPos n (nbr f e).edge (nbr f e).transform.hasRev k a).1
        (srcPos n (nbr f e).edge (nbr f e).transform.hasRev k a).2 := by
  rcases f with ⟨fv, hfv⟩
  interval_cases fv <;> cases e
  · show (padFace p inp 0).dat (p - k) (p + a) = (inp 4).dat (n - k) (a)
    have c1 : ¬ (p + a < p) := by omega
    have c2 : p + a < p + n := by omega
    rw [padFace_app0 p inp, q0_dat p n inp hp hpn hsq (p - k) (p + a),
      if_neg c1, if_pos c2, out1_app0 p inp,
      o0_dat p n inp hp hpn hsq (p - k) (p + a - p) (by omega)]
    have c3 : (p - k) < p := by omega
    rw [if_pos c3]
    exact Grid.dat_congr _ (by omega) (by omega)
  · show (padFace p inp 0).dat (p + n - 1 + k) (p + a) = (inp 5).dat (k - 1) (a)
    have c1 : ¬ (p + a < p) := by omega
    have c2 : p + a < p + n := by omega
    rw [padFace_app0 p inp, q0_dat p n inp hp hpn hsq (p + n - 1 + k) (p + a),
      if_neg c1, if_pos c2, out1_app0 p inp,
      o0_dat p n inp hp hpn hsq (p + n - 1 + k) (p + a - p) (by omega)]
    have c3 : ¬ ((p + n - 1 + k) < p) := by omega
    have c4 : ¬ ((p + n - 1 + k) < p + n) := by omega
    rw [if_neg c3, if_neg c4]
    exact Grid.dat_congr _ (by omega) (by omega)
  · show (padFace p inp 0).dat (p + a) (p - k) = (inp 3).dat (a) (n - k)
    rw [padFace_app0 p inp, q0_dat p n inp hp hpn hsq (p + a) (p - k)]
    have c1 : (p - k) < p := by omega
    rw [if_pos c1]
    rw [out1_app3 p inp,
      o3_dat p n inp hp hpn hsq (p + a) (n - p + (p - k)) (by omega)]
    have c3 : ¬ (p + a < p) := by omega
    have c4 : p + a < p + n := by omega
    rw [if_neg c3, if_pos c4]
    exact Grid.dat_congr _ (by omega) (by omega)
  · show (padFace p inp 0).dat (p + a) (p + n - 1 + k) = (inp 1).dat (a) (k - 1)
    rw [padFace_app0 p inp, q0_dat p n inp hp hpn hsq (p + a) (p + n - 1 + k)]
    have c1 : ¬ ((p + n - 1 + k) < p) := by omega
    have c2 : ¬ ((p + n - 1 + k) < p + n) := by omega
    rw [if_neg c1, if_neg c2]
    rw [out1_app1 p inp,
      o1_dat p n inp hp hpn hsq (p + a) ((p + n - 1 + k) - p - n) (by omega)]
    have c3 : ¬ (p + a < p) := by omega
    have c4 : p + a < p + n := by omega
    rw [if_neg c3, if_pos c4]
    exact Grid.dat_congr _ (by omega) (by omega)
  · show (padFace p inp 1).dat (p - k) (p + a) = (inp 4).dat (n - 1 - a) (n - k)
    have c1 : ¬ (p + a < p) := by omega
    have c2 : p + a < p + n := by omega
    rw [padFace_app1 p inp, q1_dat p n inp hp hpn hsq (p - k) (p + a),
      if_neg c1, if_pos c2, out1_app1 p inp,
      o1_dat p n inp hp hpn hsq (p - k) (p + a - p) (by omega)]
    have c3 : (p - k) < p := by omega
    rw [if_pos c3]
    exact Grid.dat_congr _ (by omega) (by omega)
  · show (padFace p inp 1).dat (p + n - 1 + k) (p + a) = (inp 5).dat (a) (n - k)
    have c1 : ¬ (p + a < p) := by omega
    have c2 : p + a < p + n := by omega
    rw [padFace_app1 p inp, q1_dat p n inp hp hpn hsq (p + n - 1 + k) (p + a),
      if_neg c1, if_pos c2, out1_app1 p inp,
      o1_dat p n inp hp hpn hsq (p + n - 1 + k) (p + a - p) (by omega)]
    have c3 : ¬ ((p + n - 1 + k) < p) := by omega
    have c4 : ¬ ((p + n - 1 + k) < p + n) := by omega
    rw [if_neg c3, if_neg c4]
    exact Grid.dat_congr _ (by omega) (by omega)
  · show (padFace p inp 1).dat (p + a) (p - k) = (inp 0).dat (a) (n - k)
    rw [padFace_app1 p inp, q1_dat p n inp hp hpn hsq (p + a) (p - k)]
    have c1 : (p - k) < p := by omega
    rw [if_pos c1]
    rw [out1_app0 p inp,
      o0_dat p n inp hp hpn hsq (p + a) (n - p + (p - k)) (by omega)]
    have c3 : ¬ (p + a < p) := by omega
    have c4 : p + a < p + n := by omega
    rw [if_neg c3, if_pos c4]
    exact Grid.dat_congr _ (by omega) (by omega)
  · show (padFace p inp 1).dat (p + a) (p + n - 1 + k) = (inp 2).dat (a) (k - 1)
    rw [padFace_app1 p inp, q1_dat p n inp hp hpn hsq (p + a) (p + n - 1 + k)]
    have c1 : ¬ ((p + n - 1 + k) < p) := by omega
    have c2 : ¬ ((p + n - 1 + k) < p + n) := by omega
    rw [if_neg c1, if_neg c2]
    rw [out1_app2 p inp,
      o2_dat p n inp hp hpn hsq (p + a) ((p + n - 1 + k) - p - n) (by omega)]
    have c3 : ¬ (p + a < p) := by omega
    have c4 : p + a < p + n := by omega
    rw [if_neg c3, if_pos c4]
    exact Grid.dat_congr _ (by omega) (by omega)
  · show (padFace p inp 2).dat (p - k) (p + a) = (inp 4).dat (k - 1) (n - 1 - a)
    have c1 : ¬ (p + a < p) := by omega
    have c2 : p + a < p + n := by omega
    rw [padFace_app2 p inp, q2_dat p n inp hp hpn hsq (p - k) (p + a),
      if_neg c1, if_pos c2, out1_app2 p inp,
      o2_dat p n inp hp hpn hsq (p - k) (p + a - p) (by omega)]
    have c3 : (p - k) < p := by omega
    rw [if_pos c3]
    exact Grid.dat_congr _ (by omega) (by omega)
  · show (padFace p inp 2).dat (p + n - 1 + k) (p + a) = (inp 5).dat (n - k) (n - 1 - a)
    have c1 : ¬ (p + a < p) := by omega
    have c2 : p + a < p + n := by omega
    rw [padFace_app2 p inp, q2_dat p n inp hp hpn hsq (p + n - 1 + k) (p + a),
      if_neg c1, if_pos c2, out1_app2 p inp,
      o2_dat p n inp hp hpn hsq (p + n - 1 + k) (p + a - p) (by omega)]
    have c3 : ¬ ((p + n - 1 + k) < p) := by omega
    have c4 : ¬ ((p + n - 1 + k) < p + n) := by omega
    rw [if_neg c3, if_neg c4]
    exact Grid.dat_congr _ (by omega) (by omega)
  · show (padFace p inp 2).dat (p + a) (p - k) = (inp 1).dat (a) (n - k)
    rw [padFace_app2 p inp, q2_dat p n inp hp hpn hsq (p + a) (p - k)]
    have c1 : (p - k) < p := by omega
    rw [if_pos c1]
    rw [out1_app1 p inp,
      o1_dat p n inp hp hpn hsq (p + a) (n - p + (p - k)) (by omega)]
    have c3 : ¬ (p + a < p) := by omega
    have c4 : p + a < p + n := by omega
    rw [if_neg c3, if_pos c4]
    exact Grid.dat_congr _ (by omega) (by omega)
  · show (padFace p inp 2).dat (p + a) (p + n - 1 + k) = (inp 3).dat (a) (k - 1)
    rw [padFace_app2 p inp, q2_dat p n inp hp hpn hsq (p + a) (p + n - 1 + k)]
    have c1 : ¬ ((p + n - 1 + k) < p) := by omega
    have c2 : ¬ ((p + n - 1 + k) < p + n) := by omega
    rw [if_neg c1, if_neg c2]
    rw [out1_app3 p inp,
      o3_dat p n inp hp hpn hsq (p + a) ((p + n - 1 + k) - p - n) (by omega)]
    have c3 : ¬ (p + a < p) := by omega
    have c4 : p + a < p + n := by omega
    rw [if_neg c3, if_pos c4]
    exact Grid.dat_congr _ (by omega) (by omega)
  · show (padFace p inp 3).dat (p - k) (p + a) = (inp 4).dat (a) (k - 1)
    have c1 : ¬ (p + a < p) := by omega
    have c2 : p + a < p + n := by omega
    rw [padFace_app3 p inp, q3_dat p n inp hp hpn hsq (p - k) (p + a),
      if_neg c1, if_pos c2, out1_app3 p inp,
      o3_dat p n inp hp hpn hsq (p - k) (p + a - p) (by omega)]
    have c3 : (p - k) < p := by omega
    rw [if_pos c3]
    exact Grid.dat_congr _ (by omega) (by omega)
  · show (padFace p inp 3).dat (p + n - 1 + k) (p + a) = (inp 5).dat (n - 1 - a) (k - 1)
    have c1 : ¬ (p + a < p) := by omega
    have c2 : p + a < p + n := by omega
    rw [padFace_app3 p inp, q3_dat p n inp hp hpn hsq (p + n - 1 + k) (p + a),
      if_neg c1, if_pos c2, out1_app3 p inp,
      o3_dat p n inp hp hpn hsq (p + n - 1 + k) (p + a - p) (by omega)]
    have c3 : ¬ ((p + n - 1 + k) < p) := by omega
    have c4 : ¬ ((p + n - 1 + k) < p + n) := by omega
    rw [if_neg c3, if_neg c4]
    exact Grid.dat_congr _ (by omega) (by omega)
  · show (padFace p inp 3).dat (p + a) (p - k) = (inp 2).dat (a) (n - k)
    rw [padFace_app3 p inp, q3_dat p n inp hp hpn hsq (p + a) (p - k)]
    have c1 : (p - k) < p := by omega
    rw [if_pos c1]
    rw [out1_app2 p inp,
      o2_dat p n inp hp hpn hsq (p + a) (n - p + (p - k)) (by omega)]
    have c3 : ¬ (p + a < p) := by omega
    have c4 : p + a < p + n := by omega
    rw [if_neg c3, if_pos c4]
    exact Grid.dat_congr _ (by omega) (by omega)
  · show (padFace p inp 3).dat (p + a) (p + n - 1 + k) = (inp 0).dat (a) (k - 1)
    rw [padFace_app3 p inp, q3_dat p n inp hp hpn hsq (p + a) (p + n - 1 + k)]
    have c1 : ¬ ((p + n - 1 + k) < p) := by omega
    have c2 : ¬ ((p + n - 1 + k) < p + n) := by omega
    rw [if_neg c1, if_neg c2]
    rw [out1_app0 p inp,
      o0_dat p n inp hp hpn hsq (p + a) ((p + n - 1 + k) - p - n) (by omega)]
    have c3 : ¬ (p + a < p) := by omega
    have c4 : p + a < p + n := by omega
    rw [if_neg c3, if_pos c4]
    exact Grid.dat_congr _ (by omega) (by omega)
  · show (padFace p inp 4).dat (p - k) (p + a) = (inp 2).dat (k - 1) (n - 1 - a)
    have c1 : ¬ (p + a < p) := by omega
    have c2 : p + a < p + n := by omega
    rw [padFace_app4 p inp, q4_dat p n inp hp hpn hsq (p - k) (p + a),
      if_neg c1, if_pos c2, out1_app4 p inp,
      o4_dat p n inp hp hpn hsq (p - k) (p + a - p) (by omega)]
    have c3 : (p - k) < p := by omega
    rw [if_pos c3]
    exact Grid.dat_congr _ (by omega) (by omega)
  · show (padFace p inp 4).dat (p + n - 1 + k) (p + a) = (inp 0).dat (k - 1) (a)
    have c1 : ¬ (p + a < p) := by omega
    have c2 : p + a < p + n := by omega
    rw [padFace_app4 p inp, q4_dat p n inp hp hpn hsq (p + n - 1 + k) (p + a),
      if_neg c1, if_pos c2, out1_app4 p inp,
      o4_dat p n inp hp hpn hsq (p + n - 1 + k) (p + a - p) (by omega)]
    have c3 : ¬ ((p + n - 1 + k) < p) := by omega
    have c4 : ¬ ((p + n - 1 + k) < p + n) := by omega
    rw [if_neg c3, if_neg c4]
    exact Grid.dat_congr _ (by omega) (by omega)
  · show (padFace p inp 4).dat (p + a) (p - k) = (inp 3).dat (k - 1) a
    have c1 : p - k < p := by omega
    rw [padFace_app4 p inp, q4_dat p n inp hp hpn hsq (p + a) (p - k),
      if_pos c1,
      q3_dat p n inp hp hpn hsq (2 * p - 1 - (p - k)) (p + a)]
    have c2 : ¬ (p + a < p) := by omega
    have c3 : p + a < p + n := by omega
    rw [if_neg c2, if_pos c3, out1_app3 p inp,
      o3_dat p n inp hp hpn hsq (2 * p - 1 - (p - k)) (p + a - p) (by omega)]
    have c4 : ¬ (2 * p - 1 - (p - k) < p) := by omega
    have c5 : 2 * p - 1 - (p - k) < p + n := by omega
    rw [if_neg c4, if_pos c5]
    exact Grid.dat_congr _ (by omega) (by omega)
  · show (padFace p inp 4).dat (p + a) (p + n - 1 + k) = (inp 1).dat (k - 1) (n - 1 - a)
    have c1 : ¬ (p + n - 1 + k < p) := by omega
    have c2 : ¬ (p + n - 1 + k < p + n) := by omega
    rw [padFace_app4 p inp, q4_dat p n inp hp hpn hsq (p + a) (p + n - 1 + k),
      if_neg c1, if_neg c2,
      q1_dat p n inp hp hpn hsq (p + n - 1 + k - n) (n + 2 * p - 1 - (p + a))]
    have c3 : ¬ (n + 2 * p - 1 - (p + a) < p) := by omega
    have c4 : n + 2 * p - 1 - (p + a) < p + n := by omega
    rw [if_neg c3, if_pos c4, out1_app1 p inp,
      o1_dat p n inp hp hpn hsq (p + n - 1 + k - n) (n + 2 * p - 1 - (p + a) - p) (by omega)]
    have c5 : ¬ (p + n - 1 + k - n < p) := by omega
    have c6 : p + n - 1 + k - n < p + n := by omega
    rw [if_neg c5, if_pos c6]
    exact Grid.dat_congr _ (by omega) (by omega)
  · show (padFace p inp 5).dat (p - k) (p + a) = (inp 0).dat (n - k) (a)
    have c1 : ¬ (p + a < p) := by omega
    have c2 : p + a < p + n := by omega
    rw [padFace_app5 p inp, q5_dat p n inp hp hpn hsq (p - k) (p + a) (by omega),
      if_neg c1, if_pos c2, out1_app5 p inp,
      o5_dat p n inp hp hpn hsq (p - k) (p + a - p) (by omega)]
    have c3 : (p - k) < p := by omega
    rw [if_pos c3]
    exact Grid.dat_congr _ (by omega) (by omega)
  · show (padFace p inp 5).dat (p + n - 1 + k) (p + a) = (inp 2).dat (n - k) (n - 1 - a)
    have c1 : ¬ (p + a < p) := by omega
    have c2 : p + a < p + n := by omega
    rw [padFace_app5 p inp, q5_dat p n inp hp hpn hsq (p + n - 1 + k) (p + a) (by omega),
      if_neg c1, if_pos c2, out1_app5 p inp,
      o5_dat p n inp hp hpn hsq (p + n - 1 + k) (p + a - p) (by omega)]
    have c3 : ¬ ((p + n - 1 + k) < p) := by omega
    have c4 : ¬ ((p + n - 1 + k) < p + n) := by omega
    rw [if_neg c3, if_neg c4]
    exact Grid.dat_congr _ (by omega) (by omega)
  · show (padFace p inp 5).dat (p + a) (p - k) = (inp 3).dat (n - k) (n - 1 - a)
    have c1 : p - k < p := by omega
    rw [padFace_app5 p inp, q5_dat p n inp hp hpn hsq (p + a) (p - k) (by omega),
      if_pos c1,
      q3_dat p n inp hp hpn hsq (n + (p - k)) (n + 2 * p - 1 - (p + a))]
    have c2 : ¬ (n + 2 * p - 1 - (p + a) < p) := by omega
    have c3 : n + 2 * p - 1 - (p + a) < p + n := by omega
    rw [if_neg c2, if_pos c3, out1_app3 p inp,
      o3_dat p n inp hp hpn hsq (n + (p - k)) (n + 2 * p - 1 - (p + a) - p) (by omega)]
    have c4 : ¬ (n + (p - k) < p) := by omega
    have c5 : n + (p - k) < p + n := by omega
    rw [if_neg c4, if_pos c5]
    exact Grid.dat_congr _ (by omega) (by omega)
  · show (padFace p inp 5).dat (p + a) (p + n - 1 + k) = (inp 1).dat (n - k) a
    have c1 : ¬ (p + n - 1 + k < p) := by omega
    have c2 : ¬ (p + n - 1 + k < p + n) := by omega
    rw [padFace_app5 p inp, q5_dat p n inp hp hpn hsq (p + a) (p + n - 1 + k) (by omega),
      if_neg c1, if_neg c2,
      q1_dat p n inp hp hpn hsq (n + p - 1 - (p + n - 1 + k - p - n)) (p + a)]
    have c3 : ¬ (p + a < p) := by omega
    have c4 : p + a < p + n := by omega
    rw [if_neg c3, if_pos c4, out1_app1 p inp,
      o1_dat p n inp hp hpn hsq (n + p - 1 - (p + n - 1 + k - p - n)) (p + a - p) (by omega)]
    have c5 : ¬ (n + p - 1 - (p + n - 1 + k - p - n) < p) := by omega
    have c6 : n + p - 1 - (p + n - 1 + k - p - n) < p + n := by omega
    rw [if_neg c5, if_pos c6]
    exact Grid.dat_congr _ (by omega) (by omega)

theorem padFace_h (hp : 1 ≤ p) (hpn : p ≤ n) (hsq : Square inp n)
    (f : Fin 6) : (padFace p inp f).h = n + 2 * p := by
  rcases f with ⟨fv, hfv⟩
  interval_cases fv
  · exact q0_h p n inp hp hpn hsq
  · exact q1_h p n inp hp hpn hsq
  · exact q2_h p n inp hp hpn hsq
  · exact q3_h p n inp hp hpn hsq
  · exact q4_h p n inp hp hpn hsq
  · exact q5_h p n inp hp hpn hsq

theorem padFace_w (hp : 1 ≤ p) (hpn : p ≤ n) (hsq : Square inp n)
    (f : Fin 6) : (padFace p inp f).w = n + 2 * p := by
  rcases f with ⟨fv, hfv⟩
  interval_cases fv
  · exact q0_w p n inp hp hpn hsq
  · exact q1_w p n inp hp hpn hsq
  · exact q2_w p n inp hp hpn hsq
  · exact q3_w p n inp hp hpn hsq
  · exact q4_w p n inp hp hpn hsq
  · exact q5_w p n inp hp hpn hsq

theorem padOk_of_square (hp : 1 ≤ p) (hpn : p ≤ n) (hsq : Square inp n) :
    padOk p inp := by
  obtain ⟨h0, w0⟩ := hsq 0
  obtain ⟨h1, w1⟩ := hsq 1
  obtain ⟨h2, w2⟩ := hsq 2
  obtain ⟨h3, w3⟩ := hsq 3
  obtain ⟨h4, w4⟩ := hsq 4
  obtain ⟨h5, w5⟩ := hsq 5
  have hne : ¬ p = 0 := by omega
  have t0 := out1_h p n inp hp hpn hsq 0
  have t1 := out1_h p n inp hp hpn hsq 1
  have t2 := out1_h p n inp hp hpn hsq 2
  have t3 := out1_h p n inp hp hpn hsq 3
  have t4 := out1_h p n inp hp hpn hsq 4
  have t5 := out1_h p n inp hp hpn hsq 5
  have u0 := out1_w p n inp hp hpn hsq 0
  have u1 := out1_w p n inp hp hpn hsq 1
  have u2 := out1_w p n inp hp hpn hsq 2
  have u3 := out1_w p n inp hp hpn hsq 3
  have u4 := out1_w p n inp hp hpn hsq 4
  have u5 := out1_w p n inp hp hpn hsq 5
  have r1h := q1_h p n inp hp hpn hsq
  have r1w := q1_w p n inp hp hpn hsq
  have r3h := q3_h p n inp hp hpn hsq
  have r3w := q3_w p n inp hp hpn hsq
  refine ⟨?_, ?_, ?_, ?_, ?_, ?_, ⟨?_, ?_, ?_, ?_, ?_, ?_⟩, ?_⟩
  · simp only [Grid.vcat3Ok, Grid.lastRows, Grid.firstRows, h4, w4, h0, w0,
      h5, w5, if_neg hne] <;>
      (first | trivial | omega | (constructor <;> first | trivial | omega))
  · simp only [Grid.vcat3Ok, Grid.tr, Grid.lastCols, Grid.revRows,
      Grid.revCols, h4, w4, h1, w1, h5, w5, if_neg hne] <;>
      (first | trivial | omega | (constructor <;> first | trivial | omega))
  · simp only [Grid.vcat3Ok, Grid.firstRows, Grid.lastRows, Grid.revRows,
      Grid.revCols, h4, w4, h2, w2, h5, w5, if_neg hne] <;>
      (first | trivial | omega | (constructor <;> first | trivial | omega))
  · simp only [Grid.vcat3Ok, Grid.tr, Grid.firstCols, Grid.revRows,
      Grid.revCols, h4, w4, h3, w3, h5, w5, if_neg hne] <;>
      (first | trivial | omega | (constructor <;> first | trivial | omega))
  · simp only [Grid.vcat3Ok, Grid.firstRows, Grid.revRows, Grid.revCols,
      h2, w2, h4, w4, h0, w0, if_neg hne] <;>
      (first | trivial | omega | (constructor <;> first | trivial | omega))
  · simp only [Grid.vcat3Ok, Grid.lastRows, Grid.revRows, Grid.revCols,
      h0, w0, h5, w5, h2, w2, if_neg hne] <;>
      (first | trivial | omega | (constructor <;> first | trivial | omega))
  · simp only [Grid.hcat3Ok, Grid.lastCols, Grid.firstCols, t3, t0, t1,
      if_neg hne] <;>
      (first | trivial | omega | (constructor <;> first | trivial | omega))
  · simp only [Grid.hcat3Ok, Grid.lastCols, Grid.firstCols, t0, t1, t2,
      if_neg hne] <;>
      (first | trivial | omega | (constructor <;> first | trivial | omega))
  · simp only [Grid.hcat3Ok, Grid.lastCols, Grid.firstCols, t1, t2, t3,
      if_neg hne] <;>
      (first | trivial | omega | (constructor <;> first | trivial | omega))
  · simp only [Grid.hcat3Ok, Grid.lastCols, Grid.firstCols, t2, t3, t0,
      if_neg hne] <;>
      (first | trivial | omega | (constructor <;> first | trivial | omega))
  · simp only [Grid.hcat3Ok, Grid.tr, Grid.midRows, Grid.revRows,
      Grid.revCols, r3h, r3w, r1h, r1w, t4, if_neg hne] <;>
      (first | trivial | omega | (constructor <;> first | trivial | omega))
  · simp only [Grid.hcat3Ok, Grid.tr, Grid.negMidRows, Grid.revRows,
      Grid.revCols, r3h, r3w, r1h, r1w, t5, if_neg hne] <;>
      (first | trivial | omega | (constructor <;> first | trivial | omega))
  · intro f
    rw [padFace_h p n inp hp hpn hsq f, padFace_w p n inp hp hpn hsq f,
      padFace_h p n inp hp hpn hsq 0, padFace_w p n inp hp hpn hsq 0]
    exact ⟨rfl, rfl⟩

end ZoneLemmas

theorem vec6_0 {γ : Type} (a b c d e f : γ) :
    (![a, b, c, d, e, f] : Fin 6 → γ) 0 = a := rfl

theorem vec6_1 {γ : Type} (a b c d e f : γ) :
    (![a, b, c, d, e, f] : Fin 6 → γ) 1 = b := rfl

theorem vec6_2 {γ : Type} (a b c d e f : γ) :
    (![a, b, c, d, e, f] : Fin 6 → γ) 2 = c := rfl

theorem vec6_3 {γ : Type} (a b c d e f : γ) :
    (![a, b, c, d, e, f] : Fin 6 → γ) 3 = d := rfl

theorem vec6_4 {γ : Type} (a b c d e f : γ) :
    (![a, b, c, d, e, f] : Fin 6 → γ) 4 = e := rfl

theorem vec6_5 {γ : Type} (a b c d e f : γ) :
    (![a, b, c, d, e, f] : Fin 6 → γ) 5 = f := rfl

/-- Every cell of every corner halo block of the padded cube equals the
two-hop trace through the adjacency table that crosses the width edge
first (`cornerTraceW`), for every valid input. -/
theorem pad_corner_char {α : Type} (p n : Nat) (inp : Fin 6 → Grid α)
    (hp : 1 ≤ p) (hpn : p ≤ n) (hsq : Square inp n) (f : Fin 6)
    (pi pj : Nat)
    (hri : pi < p ∨ (n + p ≤ pi ∧ pi < n + 2 * p))
    (hrj : pj < p ∨ (n + p ≤ pj ∧ pj < n + 2 * p)) :
    (padFace p inp f).dat pi pj =
      cornerTraceW inp n f ((pi : Int) - p) ((pj : Int) - p) := by
  rcases f with ⟨fv, hfv⟩
  interval_cases fv
  · -- face 0
    show (padFace p inp 0).dat pi pj =
      cornerTraceW inp n 0 ((pi : Int) - p) ((pj : Int) - p)
    rcases hri with hi | hi <;> rcases hrj with hj | hj
    · -- TL
      rw [padFace_app0 p inp, q0_dat p n inp hp hpn hsq pi pj]
      rw [if_pos hj, out1_app3 p inp,
        o3_dat p n inp hp hpn hsq pi (n - p + pj) (by omega)]
      rw [if_pos hi]
      have h1 : (pj : Int) - (p : Int) < 0 := by omega
      have h2 : (pi : Int) - (p : Int) < 0 ∨ (n : Int) ≤ (pi : Int) - (p : Int) := by omega
      have h3 : (pi : Int) - (p : Int) < 0 := by omega
      simp only [cornerTraceW, gridAtInt, hopAny, hopCol, hopRow, srcPosInt,
      nbr, Transform.hasRev, vec6_0, vec6_1, vec6_2, vec6_3, vec6_4, vec6_5,
      if_pos h1, if_pos h2, if_pos h3]
      exact Grid.dat_congr _ (by omega) (by omega)
    · -- TR
      rw [padFace_app0 p inp, q0_dat p n inp hp hpn hsq pi pj]
      rw [if_neg (show ¬ (pj < p) by omega), if_neg (show ¬ (pj < p + n) by omega),
        out1_app1 p inp, o1_dat p n inp hp hpn hsq pi (pj - p - n) (by omega)]
      rw [if_pos hi]
      have h1 : ¬ ((pj : Int) - (p : Int) < 0) := by omega
      have h2 : (pi : Int) - (p : Int) < 0 ∨ (n : Int) ≤ (pi : Int) - (p : Int) := by omega
      have h3 : (pi : Int) - (p : Int) < 0 := by omega
      simp only [cornerTraceW, gridAtInt, hopAny, hopCol, hopRow, srcPosInt,
      nbr, Transform.hasRev, vec6_0, vec6_1, vec6_2, vec6_3, vec6_4, vec6_5,
      if_neg h1, if_pos h2, if_pos h3]
      exact Grid.dat_congr _ (by omega) (by omega)
    · -- BL
      rw [padFace_app0 p inp, q0_dat p n inp hp hpn hsq pi pj]
      rw [if_pos hj, out1_app3 p inp,
        o3_dat p n inp hp hpn hsq pi (n - p + pj) (by omega)]
      rw [if_neg (show ¬ (pi < p) by omega), if_neg (show ¬ (pi < p + n) by omega)]
      have h1 : (pj : Int) - (p : Int) < 0 := by omega
      have h2 : (pi : Int) - (p : Int) < 0 ∨ (n : Int) ≤ (pi : Int) - (p : Int) := by omega
      have h3 : ¬ ((pi : Int) - (p : Int) < 0) := by omega
      simp only [cornerTraceW, gridAtInt, hopAny, hopCol, hopRow, srcPosInt,
      nbr, Transform.hasRev, vec6_0, vec6_1, vec6_2, vec6_3, vec6_4, vec6_5,
      if_pos h1, if_pos h2, if_neg h3]
      exact Grid.dat_congr _ (by omega) (by omega)
    · -- BR
      rw [padFace_app0 p inp, q0_dat p n inp hp hpn hsq pi pj]
      rw [if_neg (show ¬ (pj < p) by omega), if_neg (show ¬ (pj < p + n) by omega),
        out1_app1 p inp, o1_dat p n inp hp hpn hsq pi (pj - p - n) (by omega)]
      rw [if_neg (show ¬ (pi < p) by omega), if_neg (show ¬ (pi < p + n) by omega)]
      have h1 : ¬ ((pj : Int) - (p : Int) < 0) := by omega
      have h2 : (pi : Int) - (p : Int) < 0 ∨ (n : Int) ≤ (pi : Int) - (p : Int) := by omega
      have h3 : ¬ ((pi : Int) - (p : Int) < 0) := by omega
      simp only [cornerTraceW, gridAtInt, hopAny, hopCol, hopRow, srcPosInt,
      nbr, Transform.hasRev, vec6_0, vec6_1, vec6_2, vec6_3, vec6_4, vec6_5,
      if_neg h1, if_pos h2, if_neg h3]
      exact Grid.dat_congr _ (by omega) (by omega)
  · -- face 1
    show (padFace p inp 1).dat pi pj =
      cornerTraceW inp n 1 ((pi : Int) - p) ((pj : Int) - p)
    rcases hri with hi | hi <;> rcases hrj with hj | hj
    · -- TL
      rw [padFace_app1 p inp, q1_dat p n inp hp hpn hsq pi pj]
      rw [if_pos hj, out1_app0 p inp,
        o0_dat p n inp hp hpn hsq pi (n - p + pj) (by omega)]
      rw [if_pos hi]
      have h1 : (pj : Int) - (p : Int) < 0 := by omega
      have h2 : (pi : Int) - (p : Int) < 0 ∨ (n : Int) ≤ (pi : Int) - (p : Int) := by omega
      have h3 : (pi : Int) - (p : Int) < 0 := by omega
      simp only [cornerTraceW, gridAtInt, hopAny, hopCol, hopRow, srcPosInt,
      nbr, Transform.hasRev, vec6_0, vec6_1, vec6_2, vec6_3, vec6_4, vec6_5,
      if_pos h1, if_pos h2, if_pos h3]
      exact Grid.dat_congr _ (by omega) (by omega)
    · -- TR
      rw [padFace_app1 p inp, q1_dat p n inp hp hpn hsq pi pj]
      rw [if_neg (show ¬ (pj < p) by omega), if_neg (show ¬ (pj < p + n) by omega),
        out1_app2 p inp, o2_dat p n inp hp hpn hsq pi (pj - p - n) (by omega)]
      rw [if_pos hi]
      have h1 : ¬ ((pj : Int) - (p : Int) < 0) := by omega
      have h2 : (pi : Int) - (p : Int) < 0 ∨ (n : Int) ≤ (pi : Int) - (p : Int) := by omega
      have h3 : (pi : Int) - (p : Int) < 0 := by omega
      simp only [cornerTraceW, gridAtInt, hopAny, hopCol, hopRow, srcPosInt,
      nbr, Transform.hasRev, vec6_0, vec6_1, vec6_2, vec6_3, vec6_4, vec6_5,
      if_neg h1, if_pos h2, if_pos h3]
      exact Grid.dat_congr _ (by omega) (by omega)
    · -- BL
      rw [padFace_app1 p inp, q1_dat p n inp hp hpn hsq pi pj]
      rw [if_pos hj, out1_app0 p inp,
        o0_dat p n inp hp hpn hsq pi (n - p + pj) (by omega)]
      rw [if_neg (show ¬ (pi < p) by omega), if_neg (show ¬ (pi < p + n) by omega)]
      have h1 : (pj : Int) - (p : Int) < 0 := by omega
      have h2 : (pi : Int) - (p : Int) < 0 ∨ (n : Int) ≤ (pi : Int) - (p : Int) := by omega
      have h3 : ¬ ((pi : Int) - (p : Int) < 0) := by omega
      simp only [cornerTraceW, gridAtInt, hopAny, hopCol, hopRow, srcPosInt,
      nbr, Transform.hasRev, vec6_0, vec6_1, vec6_2, vec6_3, vec6_4, vec6_5,
      if_pos h1, if_pos h2, if_neg h3]
      exact Grid.dat_congr _ (by omega) (by omega)
    · -- BR
      rw [padFace_app1 p inp, q1_dat p n inp hp hpn hsq pi pj]
      rw [if_neg (show ¬ (pj < p) by omega), if_neg (show ¬ (pj < p + n) by omega),
        out1_app2 p inp, o2_dat p n inp hp hpn hsq pi (pj - p - n) (by omega)]
      rw [if_neg (show ¬ (pi < p) by omega), if_neg (show ¬ (pi < p + n) by omega)]
      have h1 : ¬ ((pj : Int) - (p : Int) < 0) := by omega
      have h2 : (pi : Int) - (p : Int) < 0 ∨ (n : Int) ≤ (pi : Int) - (p : Int) := by omega
      have h3 : ¬ ((pi : Int) - (p : Int) < 0) := by omega
      simp only [cornerTraceW, gridAtInt, hopAny, hopCol, hopRow, srcPosInt,
      nbr, Transform.hasRev, vec6_0, vec6_1, vec6_2, vec6_3, vec6_4, vec6_5,
      if_neg h1, if_pos h2, if_neg h3]
      exact Grid.dat_congr _ (by omega) (by omega)
  · -- face 2
    show (padFace p inp 2).dat pi pj =
      cornerTraceW inp n 2 ((pi : Int) - p) ((pj : Int) - p)
    rcases hri with hi | hi <;> rcases hrj with hj | hj
    · -- TL
      rw [padFace_app2 p inp, q2_dat p n inp hp hpn hsq pi pj]
      rw [if_pos hj, out1_app1 p inp,
        o1_dat p n inp hp hpn hsq pi (n - p + pj) (by omega)]
      rw [if_pos hi]
      have h1 : (pj : Int) - (p : Int) < 0 := by omega
      have h2 : (pi : Int) - (p : Int) < 0 ∨ (n : Int) ≤ (pi : Int) - (p : Int) := by omega
      have h3 : (pi : Int) - (p : Int) < 0 := by omega
      simp only [cornerTraceW, gridAtInt, hopAny, hopCol, hopRow, srcPosInt,
      nbr, Transform.hasRev, vec6_0, vec6_1, vec6_2, vec6_3, vec6_4, vec6_5,
      if_pos h1, if_pos h2, if_pos h3]
      exact Grid.dat_congr _ (by omega) (by omega)
    · -- TR
      rw [padFace_app2 p inp, q2_dat p n inp hp hpn hsq pi pj]
      rw [if_neg (show ¬ (pj < p) by omega), if_neg (show ¬ (pj < p + n) by omega),
        out1_app3 p inp, o3_dat p n inp hp hpn hsq pi (pj - p - n) (by omega)]
      rw [if_pos hi]
      have h1 : ¬ ((pj : Int) - (p : Int) < 0) := by omega
      have h2 : (pi : Int) - (p : Int) < 0 ∨ (n : Int) ≤ (pi : Int) - (p : Int) := by omega
      have h3 : (pi : Int) - (p : Int) < 0 := by omega
      simp only [cornerTraceW, gridAtInt, hopAny, hopCol, hopRow, srcPosInt,
      nbr, Transform.hasRev, vec6_0, vec6_1, vec6_2, vec6_3, vec6_4, vec6_5,
      if_neg h1, if_pos h2, if_pos h3]
      exact Grid.dat_congr _ (by omega) (by omega)
    · -- BL
      rw [padFace_app2 p inp, q2_dat p n inp hp hpn hsq pi pj]
      rw [if_pos hj, out1_app1 p inp,
        o1_dat p n inp hp hpn hsq pi (n - p + pj) (by omega)]
      rw [if_neg (show ¬ (pi < p) by omega), if_neg (show ¬ (pi < p + n) by omega)]
      have h1 : (pj : Int) - (p : Int) < 0 := by omega
      have h2 : (pi : Int) - (p : Int) < 0 ∨ (n : Int) ≤ (pi : Int) - (p : Int) := by omega
      have h3 : ¬ ((pi : Int) - (p : Int) < 0) := by omega
      simp only [cornerTraceW, gridAtInt, hopAny, hopCol, hopRow, srcPosInt,
      nbr, Transform.hasRev, vec6_0, vec6_1, vec6_2, vec6_3, vec6_4, vec6_5,
      if_pos h1, if_pos h2, if_neg h3]
      exact Grid.dat_congr _ (by omega) (by omega)
    · -- BR
      rw [padFace_app2 p inp, q2_dat p n inp hp hpn hsq pi pj]
      rw [if_neg (show ¬ (pj < p) by omega), if_neg (show ¬ (pj < p + n) by omega),
        out1_app3 p inp, o3_dat p n inp hp hpn hsq pi (pj - p - n) (by omega)]
      rw [if_neg (show ¬ (pi < p) by omega), if_neg (show ¬ (pi < p + n) by omega)]
      have h1 : ¬ ((pj : Int) - (p : Int) < 0) := by omega
      have h2 : (pi : Int) - (p : Int) < 0 ∨ (n : Int) ≤ (pi : Int) - (p : Int) := by omega
      have h3 : ¬ ((pi : Int) - (p : Int) < 0) := by omega
      simp only [cornerTraceW, gridAtInt, hopAny, hopCol, hopRow, srcPosInt,
      nbr, Transform.hasRev, vec6_0, vec6_1, vec6_2, vec6_3, vec6_4, vec6_5,
      if_neg h1, if_pos h2, if_neg h3]
      exact Grid.dat_congr _ (by omega) (by omega)
  · -- face 3
    show (padFace p inp 3).dat pi pj =
      cornerTraceW inp n 3 ((pi : Int) - p) ((pj : Int) - p)
    rcases hri with hi | hi <;> rcases hrj with hj | hj
    · -- TL
      rw [padFace_app3 p inp, q3_dat p n inp hp hpn hsq pi pj]
      rw [if_pos hj, out1_app2 p inp,
        o2_dat p n inp hp hpn hsq pi (n - p + pj) (by omega)]
      rw [if_pos hi]
      have h1 : (pj : Int) - (p : Int) < 0 := by omega
      have h2 : (pi : Int) - (p : Int) < 0 ∨ (n : Int) ≤ (pi : Int) - (p : Int) := by omega
      have h3 : (pi : Int) - (p : Int) < 0 := by omega
      simp only [cornerTraceW, gridAtInt, hopAny, hopCol, hopRow, srcPosInt,
      nbr, Transform.hasRev, vec6_0, vec6_1, vec6_2, vec6_3, vec6_4, vec6_5,
      if_pos h1, if_pos h2, if_pos h3]
      exact Grid.dat_congr _ (by omega) (by omega)
    · -- TR
      rw [padFace_app3 p inp, q3_dat p n inp hp hpn hsq pi pj]
      rw [if_neg (show ¬ (pj < p) by omega), if_neg (show ¬ (pj < p + n) by omega),
        out1_app0 p inp, o0_dat p n inp hp hpn hsq pi (pj - p - n) (by omega)]
      rw [if_pos hi]
      have h1 : ¬ ((pj : Int) - (p : Int) < 0) := by omega
      have h2 : (pi : Int) - (p : Int) < 0 ∨ (n : Int) ≤ (pi : Int) - (p : Int) := by omega
      have h3 : (pi : Int) - (p : Int) < 0 := by omega
      simp only [cornerTraceW, gridAtInt, hopAny, hopCol, hopRow, srcPosInt,
      nbr, Transform.hasRev, vec6_0, vec6_1, vec6_2, vec6_3, vec6_4, vec6_5,
      if_neg h1, if_pos h2, if_pos h3]
      exact Grid.dat_congr _ (by omega) (by omega)
    · -- BL
      rw [padFace_app3 p inp, q3_dat p n inp hp hpn hsq pi pj]
      rw [if_pos hj, out1_app2 p inp,
        o2_dat p n inp hp hpn hsq pi (n - p + pj) (by omega)]
      rw [if_neg (show ¬ (pi < p) by omega), if_neg (show ¬ (pi < p + n) by omega)]
      have h1 : (pj : Int) - (p : Int) < 0 := by omega
      have h2 : (pi : Int) - (p : Int) < 0 ∨ (n : Int) ≤ (pi : Int) - (p : Int) := by omega
      have h3 : ¬ ((pi : Int) - (p : Int) < 0) := by omega
      simp only [cornerTraceW, gridAtInt, hopAny, hopCol, hopRow, srcPosInt,
      nbr, Transform.hasRev, vec6_0, vec6_1, vec6_2, vec6_3, vec6_4, vec6_5,
      if_pos h1, if_pos h2, if_neg h3]
      exact Grid.dat_congr _ (by omega) (by omega)
    · -- BR
      rw [padFace_app3 p inp, q3_dat p n inp hp hpn hsq pi pj]
      rw [if_neg (show ¬ (pj < p) by omega), if_neg (show ¬ (pj < p + n) by omega),
        out1_app0 p inp, o0_dat p n inp hp hpn hsq pi (pj - p - n) (by omega)]
      rw [if_neg (show ¬ (pi < p) by omega), if_neg (show ¬ (pi < p + n) by omega)]
      have h1 : ¬ ((pj : Int) - (p : Int) < 0) := by omega
      have h2 : (pi : Int) - (p : Int) < 0 ∨ (n : Int) ≤ (pi : Int) - (p : Int) := by omega
      have h3 : ¬ ((pi : Int) - (p : Int) < 0) := by omega
      simp only [cornerTraceW, gridAtInt, hopAny, hopCol, hopRow, srcPosInt,
      nbr, Transform.hasRev, vec6_0, vec6_1, vec6_2, vec6_3, vec6_4, vec6_5,
      if_neg h1, if_pos h2, if_neg h3]
      exact Grid.dat_congr _ (by omega) (by omega)
  · -- face 4
    show (padFace p inp 4).dat pi pj =
      cornerTraceW inp n 4 ((pi : Int) - p) ((pj : Int) - p)
    rcases hri with hi | hi <;> rcases hrj with hj | hj
    · -- TL
      rw [padFace_app4 p inp, q4_dat p n inp hp hpn hsq pi pj]
      rw [if_pos hj, q3_dat p n inp hp hpn hsq (2 * p - 1 - pj) pi]
      rw [if_pos hi, out1_app2 p inp,
        o2_dat p n inp hp hpn hsq (2 * p - 1 - pj) (n - p + pi) (by omega)]
      rw [if_neg (show ¬ (2 * p - 1 - pj < p) by omega), if_pos (show 2 * p - 1 - pj < p + n by omega)]
      have h1 : (pj : Int) - (p : Int) < 0 := by omega
      have h2 : ¬ (-((pj : Int) - (p : Int)) - 1 < 0 ∨ (n : Int) ≤ -((pj : Int) - (p : Int)) - 1) := by omega
      have h3 : (pi : Int) - (p : Int) < 0 ∨ (n : Int) ≤ (pi : Int) - (p : Int) := by omega
      have h4 : (pi : Int) - (p : Int) < 0 := by omega
      simp only [cornerTraceW, gridAtInt, hopAny, hopCol, hopRow, srcPosInt,
      nbr, Transform.hasRev, vec6_0, vec6_1, vec6_2, vec6_3, vec6_4, vec6_5,
      if_pos h1, if_neg h2, if_pos h3, if_pos h4]
      exact Grid.dat_congr _ (by omega) (by omega)
    · -- TR
      rw [padFace_app4 p inp, q4_dat p n inp hp hpn hsq pi pj]
      rw [if_neg (show ¬ (pj < p) by omega), if_neg (show ¬ (pj < p + n) by omega),
        q1_dat p n inp hp hpn hsq (pj - n) (n + 2 * p - 1 - pi)]
      rw [if_neg (show ¬ (n + 2 * p - 1 - pi < p) by omega),
        if_neg (show ¬ (n + 2 * p - 1 - pi < p + n) by omega), out1_app2 p inp,
        o2_dat p n inp hp hpn hsq (pj - n) (n + 2 * p - 1 - pi - p - n) (by omega)]
      rw [if_neg (show ¬ (pj - n < p) by omega), if_pos (show pj - n < p + n by omega)]
      have h1 : ¬ ((pj : Int) - (p : Int) < 0) := by omega
      have h2 : ¬ ((pj : Int) - (p : Int) - (n : Int) + 1 - 1 < 0 ∨ (n : Int) ≤ (pj : Int) - (p : Int) - (n : Int) + 1 - 1) := by omega
      have h3 : (n : Int) - 1 - ((pi : Int) - (p : Int)) < 0 ∨ (n : Int) ≤ (n : Int) - 1 - ((pi : Int) - (p : Int)) := by omega
      have h4 : ¬ ((n : Int) - 1 - ((pi : Int) - (p : Int)) < 0) := by omega
      simp only [cornerTraceW, gridAtInt, hopAny, hopCol, hopRow, srcPosInt,
      nbr, Transform.hasRev, vec6_0, vec6_1, vec6_2, vec6_3, vec6_4, vec6_5,
      if_neg h1, if_neg h2, if_pos h3, if_neg h4]
      exact Grid.dat_congr _ (by omega) (by omega)
    · -- BL
      rw [padFace_app4 p inp, q4_dat p n inp hp hpn hsq pi pj]
      rw [if_pos hj, q3_dat p n inp hp hpn hsq (2 * p - 1 - pj) pi]
      rw [if_neg (show ¬ (pi < p) by omega), if_neg (show ¬ (pi < p + n) by omega),
        out1_app0 p inp, o0_dat p n inp hp hpn hsq (2 * p - 1 - pj) (pi - p - n) (by omega)]
      rw [if_neg (show ¬ (2 * p - 1 - pj < p) by omega), if_pos (show 2 * p - 1 - pj < p + n by omega)]
      have h1 : (pj : Int) - (p : Int) < 0 := by omega
      have h2 : ¬ (-((pj : Int) - (p : Int)) - 1 < 0 ∨ (n : Int) ≤ -((pj : Int) - (p : Int)) - 1) := by omega
      have h3 : (pi : Int) - (p : Int) < 0 ∨ (n : Int) ≤ (pi : Int) - (p : Int) := by omega
      have h4 : ¬ ((pi : Int) - (p : Int) < 0) := by omega
      simp only [cornerTraceW, gridAtInt, hopAny, hopCol, hopRow, srcPosInt,
      nbr, Transform.hasRev, vec6_0, vec6_1, vec6_2, vec6_3, vec6_4, vec6_5,
      if_pos h1, if_neg h2, if_pos h3, if_neg h4]
      exact Grid.dat_congr _ (by omega) (by omega)
    · -- BR
      rw [padFace_app4 p inp, q4_dat p n inp hp hpn hsq pi pj]
      rw [if_neg (show ¬ (pj < p) by omega), if_neg (show ¬ (pj < p + n) by omega),
        q1_dat p n inp hp hpn hsq (pj - n) (n + 2 * p - 1 - pi)]
      rw [if_pos (show n + 2 * p - 1 - pi < p by omega), out1_app0 p inp,
        o0_dat p n inp hp hpn hsq (pj - n) (n - p + (n + 2 * p - 1 - pi)) (by omega)]
      rw [if_neg (show ¬ (pj - n < p) by omega), if_pos (show pj - n < p + n by omega)]
      have h1 : ¬ ((pj : Int) - (p : Int) < 0) := by omega
      have h2 : ¬ ((pj : Int) - (p : Int) - (n : Int) + 1 - 1 < 0 ∨ (n : Int) ≤ (pj : Int) - (p : Int) - (n : Int) + 1 - 1) := by omega
      have h3 : (n : Int) - 1 - ((pi : Int) - (p : Int)) < 0 ∨ (n : Int) ≤ (n : Int) - 1 - ((pi : Int) - (p : Int)) := by omega
      have h4 : (n : Int) - 1 - ((pi : Int) - (p : Int)) < 0 := by omega
      simp only [cornerTraceW, gridAtInt, hopAny, hopCol, hopRow, srcPosInt,
      nbr, Transform.hasRev, vec6_0, vec6_1, vec6_2, vec6_3, vec6_4, vec6_5,
      if_neg h1, if_neg h2, if_pos h3, if_pos h4]
      exact Grid.dat_congr _ (by omega) (by omega)
  · -- face 5
    show (padFace p inp 5).dat pi pj =
      cornerTraceW inp n 5 ((pi : Int) - p) ((pj : Int) - p)
    rcases hri with hi | hi <;> rcases hrj with hj | hj
    · -- TL
      rw [padFace_app5 p inp, q5_dat p n inp hp hpn hsq pi pj (by omega)]
      rw [if_pos hj, q3_dat p n inp hp hpn hsq (n + pj) (n + 2 * p - 1 - pi)]
      rw [if_neg (show ¬ (n + 2 * p - 1 - pi < p) by omega),
        if_neg (show ¬ (n + 2 * p - 1 - pi < p + n) by omega), out1_app0 p inp,
        o0_dat p n inp hp hpn hsq (n + pj) (n + 2 * p - 1 - pi - p - n) (by omega)]
      rw [if_neg (show ¬ (n + pj < p) by omega), if_pos (show n + pj < p + n by omega)]
      have h1 : (pj : Int) - (p : Int) < 0 := by omega
      have h2 : ¬ ((n : Int) - -((pj : Int) - (p : Int)) < 0 ∨ (n : Int) ≤ (n : Int) - -((pj : Int) - (p : Int))) := by omega
      have h3 : (n : Int) - 1 - ((pi : Int) - (p : Int)) < 0 ∨ (n : Int) ≤ (n : Int) - 1 - ((pi : Int) - (p : Int)) := by omega
      have h4 : ¬ ((n : Int) - 1 - ((pi : Int) - (p : Int)) < 0) := by omega
      simp only [cornerTraceW, gridAtInt, hopAny, hopCol, hopRow, srcPosInt,
      nbr, Transform.hasRev, vec6_0, vec6_1, vec6_2, vec6_3, vec6_4, vec6_5,
      if_pos h1, if_neg h2, if_pos h3, if_neg h4]
      exact Grid.dat_congr _ (by omega) (by omega)
    · -- TR
      rw [padFace_app5 p inp, q5_dat p n inp hp hpn hsq pi pj (by omega)]
      rw [if_neg (show ¬ (pj < p) by omega), if_neg (show ¬ (pj < p + n) by omega),
        q1_dat p n inp hp hpn hsq (n + p - 1 - (pj - p - n)) pi]
      rw [if_pos hi, out1_app0 p inp,
        o0_dat p n inp hp hpn hsq (n + p - 1 - (pj - p - n)) (n - p + pi) (by omega)]
      rw [if_neg (show ¬ (n + p - 1 - (pj - p - n) < p) by omega),
        if_pos (show n + p - 1 - (pj - p - n) < p + n by omega)]
      have h1 : ¬ ((pj : Int) - (p : Int) < 0) := by omega
      have h2 : ¬ ((n : Int) - ((pj : Int) - (p : Int) - (n : Int) + 1) < 0 ∨ (n : Int) ≤ (n : Int) - ((pj : Int) - (p : Int) - (n : Int) + 1)) := by omega
      have h3 : (pi : Int) - (p : Int) < 0 ∨ (n : Int) ≤ (pi : Int) - (p : Int) := by omega
      have h4 : (pi : Int) - (p : Int) < 0 := by omega
      simp only [cornerTraceW, gridAtInt, hopAny, hopCol, hopRow, srcPosInt,
      nbr, Transform.hasRev, vec6_0, vec6_1, vec6_2, vec6_3, vec6_4, vec6_5,
      if_neg h1, if_neg h2, if_pos h3, if_pos h4]
      exact Grid.dat_congr _ (by omega) (by omega)
    · -- BL
      rw [padFace_app5 p inp, q5_dat p n inp hp hpn hsq pi pj (by omega)]
      rw [if_pos hj, q3_dat p n inp hp hpn hsq (n + pj) (n + 2 * p - 1 - pi)]
      rw [if_pos (show n + 2 * p - 1 - pi < p by omega), out1_app2 p inp,
        o2_dat p n inp hp hpn hsq (n + pj) (n - p + (n + 2 * p - 1 - pi)) (by omega)]
      rw [if_neg (show ¬ (n + pj < p) by omega), if_pos (show n + pj < p + n by omega)]
      have h1 : (pj : Int) - (p : Int) < 0 := by omega
      have h2 : ¬ ((n : Int) - -((pj : Int) - (p : Int)) < 0 ∨ (n : Int) ≤ (n : Int) - -((pj : Int) - (p : Int))) := by omega
      have h3 : (n : Int) - 1 - ((pi : Int) - (p : Int)) < 0 ∨ (n : Int) ≤ (n : Int) - 1 - ((pi : Int) - (p : Int)) := by omega
      have h4 : (n : Int) - 1 - ((pi : Int) - (p : Int)) < 0 := by omega
      simp only [cornerTraceW, gridAtInt, hopAny, hopCol, hopRow, srcPosInt,
      nbr, Transform.hasRev, vec6_0, vec6_1, vec6_2, vec6_3, vec6_4, vec6_5,
      if_pos h1, if_neg h2, if_pos h3, if_pos h4]
      exact Grid.dat_congr _ (by omega) (by omega)
    · -- BR
      rw [padFace_app5 p inp, q5_dat p n inp hp hpn hsq pi pj (by omega)]
      rw [if_neg (show ¬ (pj < p) by omega), if_neg (show ¬ (pj < p + n) by omega),
        q1_dat p n inp hp hpn hsq (n + p - 1 - (pj - p - n)) pi]
      rw [if_neg (show ¬ (pi < p) by omega), if_neg (show ¬ (pi < p + n) by omega),
        out1_app2 p inp, o2_dat p n inp hp hpn hsq (n + p - 1 - (pj - p - n)) (pi - p - n) (by omega)]
      rw [if_neg (show ¬ (n + p - 1 - (pj - p - n) < p) by omega),
        if_pos (show n + p - 1 - (pj - p - n) < p + n by omega)]
      have h1 : ¬ ((pj : Int) - (p : Int) < 0) := by omega
      have h2 : ¬ ((n : Int) - ((pj : Int) - (p : Int) - (n : Int) + 1) < 0 ∨ (n : Int) ≤ (n : Int) - ((pj : Int) - (p : Int) - (n : Int) + 1)) := by omega
      have h3 : (pi : Int) - (p : Int) < 0 ∨ (n : Int) ≤ (pi : Int) - (p : Int) := by omega
      have h4 : ¬ ((pi : Int) - (p : Int) < 0) := by omega
      simp only [cornerTraceW, gridAtInt, hopAny, hopCol, hopRow, srcPosInt,
      nbr, Transform.hasRev, vec6_0, vec6_1, vec6_2, vec6_3, vec6_4, vec6_5,
      if_neg h1, if_neg h2, if_pos h3, if_neg h4]
      exact Grid.dat_congr _ (by omega) (by omega)

/-! Claims about CubeSpherePadding2D. -/

/-- Claim C1: for the synthetic cube-sphere tensor in which face `i` is
filled with the constant value `i`, after `pad(T, 1)` every border halo
cell of every face (the cells along each of the four edges, whose single
geometric neighbour the topology defines; the four corner cells are the
subject of the corner-consistency claim) equals the face index of that
face's true geometric neighbour across that edge, as given by the cube
topology table. -/
theorem C1_halo_constant_faces (n : Nat) (hn : 1 ≤ n) (f : Fin 6)
    (a : Nat) (ha : a < n) :
    (padFace 1 (constCube n) f).dat 0 (1 + a) = (nbr f Edge.top).face.val ∧
    (padFace 1 (constCube n) f).dat (n + 1) (1 + a) =
      (nbr f Edge.bottom).face.val ∧
    (padFace 1 (constCube n) f).dat (1 + a) 0 = (nbr f Edge.left).face.val ∧
    (padFace 1 (constCube n) f).dat (1 + a) (n + 1) =
      (nbr f Edge.right).face.val := by
  have hsq : Square (constCube n) n := fun _ => ⟨rfl, rfl⟩
  refine ⟨?_, ?_, ?_, ?_⟩
  · exact pad_halo_char 1 n (constCube n) le_rfl hn hsq f Edge.top 1 a
      le_rfl le_rfl ha
  · exact (Grid.dat_congr _ (show n + 1 = 1 + n - 1 + 1 by omega) rfl).trans
      (pad_halo_char 1 n (constCube n) le_rfl hn hsq f Edge.bottom 1 a
        le_rfl le_rfl ha)
  · exact pad_halo_char 1 n (constCube n) le_rfl hn hsq f Edge.left 1 a
      le_rfl le_rfl ha
  · exact (Grid.dat_congr _ rfl (show n + 1 = 1 + n - 1 + 1 by omega)).trans
      (pad_halo_char 1 n (constCube n) le_rfl hn hsq f Edge.right 1 a
        le_rfl le_rfl ha)

/-- Witness for claim C1 at the concrete size 2. -/
theorem C1_halo_constant_faces_witness :
    1 ≤ 2 ∧ (0 : Nat) < 2 ∧
    (padFace 1 (constCube 2) 0).dat 0 (1 + 0) = (nbr 0 Edge.top).face.val :=
  ⟨by decide, by decide, (C1_halo_constant_faces 2 (by decide) 0 0 (by decide)).1⟩

/-- Claim C2: the adjacency relation realised by the padder is symmetric
under inverse transform (if `nbr f e = (g, e2, t)` then
`nbr g e2 = (f, e, inverse t)`), and the table `nbr` is exactly the
relation the two padding passes encode: every edge-halo cell of the
padded tensor holds the neighbour-face value at the position determined
by the recorded neighbour edge and reversal. -/
theorem C2_adjacency_symmetry :
    (∀ (f : Fin 6) (e : Edge),
      nbr (nbr f e).face (nbr f e).edge =
        ⟨f, e, (nbr f e).transform.inverse⟩) ∧
    (∀ (p n : Nat) (inp : Fin 6 → Grid Nat), 1 ≤ p → p ≤ n →
      Square inp n → ∀ (f : Fin 6) (e : Edge) (k a : Nat),
      1 ≤ k → k ≤ p → a < n →
      (padFace p inp f).dat (haloPos n p e k a).1 (haloPos n p e k a).2 =
        (inp (nbr f e).face).dat
          (srcPos n (nbr f e).edge (nbr f e).transform.hasRev k a).1
          (srcPos n (nbr f e).edge (nbr f e).transform.hasRev k a).2) := by
  constructor
  · decide
  · intro p n inp hp hpn hsq f e k a hk1 hkp ha
    exact pad_halo_char p n inp hp hpn hsq f e k a hk1 hkp ha

/-- Witness for claim C2 at a concrete instance. -/
theorem C2_adjacency_symmetry_witness :
    1 ≤ 1 ∧ 1 ≤ 2 ∧ Square brick 2 ∧
    (padFace 1 brick 1).dat (haloPos 2 1 Edge.top 1 1).1
        (haloPos 2 1 Edge.top 1 1).2 =
      (brick (nbr 1 Edge.top).face).dat
        (srcPos 2 (nbr 1 Edge.top).edge
          (nbr 1 Edge.top).transform.hasRev 1 1).1
        (srcPos 2 (nbr 1 Edge.top).edge
          (nbr 1 Edge.top).transform.hasRev 1 1).2 :=
  ⟨by decide, by decide, by decide,
   C2_adjacency_symmetry.2 1 2 brick (by decide) (by decide) (by decide)
     1 Edge.top 1 1 (by decide) (by decide) (by decide)⟩

/-- Counterexample to claim C3 as stated: the corner value is NOT
independent of the trace order.  On the 2 x 2 cube with pairwise
distinct entries, the top-left corner cell of padded face 0 equals the
width-first two-hop trace (the value 410, a face-4 entry), while the
height-first two-hop trace through the same adjacency table yields 301
(a face-3 entry). -/
theorem C3_counterexample :
    (padFace 1 brick 0).dat 0 0 = 410 ∧
    cornerTraceW brick 2 0 (-1) (-1) = 410 ∧
    cornerTraceH brick 2 0 (-1) (-1) = 301 ∧
    cornerTraceH brick 2 0 (-1) (-1) ≠ cornerTraceW brick 2 0 (-1) (-1) := by
  decide

/-- Claim C3 (amended): for every valid input and halo width
`1 ≤ p ≤ n`, every cell of each of the four `p x p` corner halo blocks
of every face equals the value obtained by independently tracing the
two-hop neighbour relationship through the adjacency table along the
width-edge-first path (the path the two-pass order realises); the
height-first path differs in general, as the counterexample shows. -/
theorem C3_corner_two_hop {α : Type} (p n : Nat) (inp : Fin 6 → Grid α)
    (hp : 1 ≤ p) (hpn : p ≤ n) (hsq : Square inp n) (f : Fin 6)
    (pi pj : Nat)
    (hri : pi < p ∨ (n + p ≤ pi ∧ pi < n + 2 * p))
    (hrj : pj < p ∨ (n + p ≤ pj ∧ pj < n + 2 * p)) :
    (padFace p inp f).dat pi pj =
      cornerTraceW inp n f ((pi : Int) - p) ((pj : Int) - p) :=
  pad_corner_char p n inp hp hpn hsq f pi pj hri hrj

/-- Witness for amended claim C3 at a concrete corner. -/
theorem C3_corner_two_hop_witness :
    1 ≤ 1 ∧ 1 ≤ 2 ∧ Square brick 2 ∧
    (padFace 1 brick 0).dat 0 3 =
      cornerTraceW brick 2 0 (((0 : Nat) : Int) - 1) (((3 : Nat) : Int) - 1) :=
  ⟨by decide, by decide, by decide,
   C3_corner_two_hop 1 2 brick (by decide) (by decide) (by decide) 0 0 3
     (by decide) (by decide)⟩

/-- Counterexample to claim C4 as stated: `p = 0` always satisfies the
precondition `p ≤ min(height, width)`, yet `pad(T, 0)` is not the
identity: python `-0:` slices select whole arrays, so on a 1 x 1 cube
the height pass already doubles the face height, the first output cell
holds a face-4 value instead of the face-0 value, and the face shapes
disagree so the final face-axis concatenation is rejected by the
framework (`padOk` fails). -/
theorem C4_counterexample :
    (padFace 0 cexInp1 0).h ≠ (cexInp1 0).h + 2 * 0 ∧
    (padFace 0 cexInp1 0).dat 0 0 ≠ (cexInp1 0).dat 0 0 ∧
    ¬ padOk 0 cexInp1 := by
  decide

/-- Claim C4 (amended): for every square input of face size `n` and
every halo width `1 ≤ p ≤ n`, `pad(T, p)` produces six faces, every
concatenation shape condition holds (the call returns), and every
output face has shape `(n + 2p) x (n + 2p)` — the batch and channel
axes are untouched (they live inside the element type of `Grid`).  The
`pad(T, 0)`-is-the-identity part of the original claim is dropped: the
counterexample shows it is false. -/
theorem C4_pad_shape {α : Type} (p n : Nat) (inp : Fin 6 → Grid α)
    (hp : 1 ≤ p) (hpn : p ≤ n) (hsq : Square inp n) :
    (∀ f : Fin 6, (padFace p inp f).h = n + 2 * p ∧
      (padFace p inp f).w = n + 2 * p) ∧
    (padList p inp).length = 6 ∧ padOk p inp :=
  ⟨fun f => ⟨padFace_h p n inp hp hpn hsq f, padFace_w p n inp hp hpn hsq f⟩,
   rfl, padOk_of_square p n inp hp hpn hsq⟩

/-- Witness for amended claim C4 at a concrete input. -/
theorem C4_pad_shape_witness :
    1 ≤ 1 ∧ 1 ≤ 2 ∧ Square brick 2 ∧
    ((∀ f : Fin 6, (padFace 1 brick f).h = 2 + 2 * 1 ∧
      (padFace 1 brick f).w = 2 + 2 * 1) ∧
     (padList 1 brick).length = 6 ∧ padOk 1 brick) :=
  ⟨by decide, by decide, by decide,
   C4_pad_shape 1 2 brick (by decide) (by decide) (by decide)⟩

/-- Counterexample to claim C5 as stated: with 1 x 1 faces and halo
width `p = 2 > min(height, width) = 1`, the call does not fail: python
slicing clips every strip, all concatenation shape conditions hold
(`padOk`), and a silently wrong-shaped 3 x 3 output is produced instead
of the 5 x 5 result the shape contract promises. -/
theorem C5_counterexample :
    min (cexInp1 0).h (cexInp1 0).w < 2 ∧
    padOk 2 cexInp1 ∧
    (padFace 2 cexInp1 0).h = 3 ∧
    (padFace 2 cexInp1 0).h ≠ 1 + 2 * 2 := by
  decide

/-- Claim C5 (amended): CubeSpherePadding2D.call performs no explicit
argument validation.  When height and width differ, the transposed
boundary strips have mismatched widths, so the framework's height-axis
concatenation check fails and no result is produced (for every halo
width).  A channel or batch mismatch across faces cannot arise, because
the six faces are slices of one tensor.  A halo width exceeding
`min(height, width)` is, however, NOT rejected in general: the
counterexample shows a silent wrong-shaped success. -/
theorem C5_mismatch_fails {α : Type} (H W p : Nat) (inp : Fin 6 → Grid α)
    (hh : ∀ f : Fin 6, (inp f).h = H) (hw : ∀ f : Fin 6, (inp f).w = W)
    (hne : H ≠ W) : ¬ padOk p inp := by
  intro hok
  obtain ⟨-, h2, -⟩ := hok
  obtain ⟨ha, -⟩ := h2
  revert ha
  simp only [Grid.tr, Grid.lastCols, Grid.revRows, Grid.revCols,
    hh 4, hw 4, hh 1, hw 1]
  exact hne

/-- Witness for amended claim C5 at a concrete 1 x 2 input. -/
theorem C5_mismatch_fails_witness :
    (∀ f : Fin 6, (cexRect f).h = 1) ∧ (∀ f : Fin 6, (cexRect f).w = 2) ∧
    (1 : Nat) ≠ 2 ∧ ¬ padOk 1 cexRect :=
  ⟨by decide, by decide, by decide,
   C5_mismatch_fails 1 2 1 cexRect (by decide) (by decide) (by decide)⟩

/-- Claim C10: the padder's constructor raises a ValueError exactly when
the normalised height padding differs from the width padding or the
height padding is unequal on its opposite edges; every accepted
configuration stores `(0, 0)` as the face-axis padding, and the output
of the padding call always has exactly six faces. -/
theorem C10_padder_constructor :
    (∀ arg : PadArg,
      ((padInit arg).isOk ↔
        (padNorm arg).1 = (padNorm arg).2.1 ∧
          (padNorm arg).1.1 = (padNorm arg).1.2) ∧
      (∀ r, padInit arg = Except.ok r → r.2.2 = (0, 0))) ∧
    (∀ (p : Nat) (inp : Fin 6 → Grid Nat), (padList p inp).length = 6) := by
  constructor
  · intro arg
    constructor
    · simp only [padInit]
      split_ifs with hc1 hc2
      · simp only [Except.isOk, Except.toBool]
        constructor
        · intro h
          cases h
        · intro h
          exact absurd h.1 hc1
      · simp only [Except.isOk, Except.toBool]
        constructor
        · intro h
          cases h
        · intro h
          exact absurd h.2 hc2
      · simp only [Except.isOk, Except.toBool]
        push_neg at hc1 hc2
        exact iff_of_true trivial ⟨hc1, hc2⟩
    · intro r hr
      simp only [padInit] at hr
      split_ifs at hr
      cases hr
      rfl
  · intro p inp
    rfl

/-- Witness for claim C10 at a concrete padding argument. -/
theorem C10_padder_constructor_witness :
    (padInit (PadArg.int 1)).isOk ∧
    (padList 1 brick).length = 6 :=
  ⟨((C10_padder_constructor.1 (PadArg.int 1)).1).mpr ⟨rfl, rfl⟩,
   C10_padder_constructor.2 1 brick⟩

/-! Claims about CubeSphereConv2D. -/

/-- Shape bookkeeping for every face output of CubeSphereConv2D.call:
the channel count becomes the filter count and the spatial dimensions
follow the valid-convolution arithmetic of `conv2d`. -/
theorem csConvCall_shape (cfg : ConvConfig) (wt : ConvWeights)
    (act : Int → Int) (inp : Fin 6 → CTensor) (f : Fin 6) :
    (csConvCall cfg wt act inp f).chans = cfg.filters ∧
    (csConvCall cfg wt act inp f).h =
      ((inp f).h + cfg.sh - dilExt cfg.kh cfg.dh) / cfg.sh ∧
    (csConvCall cfg wt act inp f).w =
      ((inp f).w + cfg.sw - dilExt cfg.kw cfg.dw) / cfg.sw := by
  obtain ⟨flt, kh2, kw2, sh2, sw2, dh2, dw2, ub, fl, ind⟩ := cfg
  rcases f with ⟨fv, hfv⟩
  interval_cases fv <;> cases ub <;> cases fl <;> cases ind <;>
    exact ⟨rfl, rfl, rfl⟩

/-- Counterexample to claim C6 as stated: the north-pole reversal of the
code acts along the HEIGHT axis (`K.reverse(x, -2)` on a
(batch, channels, height, width) tensor reverses axis -2, the height),
not along the width axis the claim describes.  With a 2 x 1 kernel that
selects the top row of its window, the code's face-5 output at (0, 0)
is 3, while the spec-modelled width-axis flip (`specFace5`) yields 1. -/
theorem C6_counterexample :
    (csConvCall exCfgFlip exWt idAct exInp 5).dat 0 0 0 = 3 ∧
    (specFace5 exCfgFlip exWt idAct exInp).dat 0 0 0 = 1 ∧
    (csConvCall exCfgFlip exWt idAct exInp 5).dat 0 0 0 ≠
      (specFace5 exCfgFlip exWt idAct exInp).dat 0 0 0 := by
  decide

/-- Claim C6 (amended): for every input, when `flipNorthPole` is set the
face-5 output of call equals: reverse face 5 along its HEIGHT axis,
convolve with the north-pole kernel (or the polar kernel when
`independentNorthPole` is not set) plus the matching bias, then reverse
the convolution output along its height axis again; when
`flipNorthPole` is not set no reversal is applied.  (The original
claim's "width axis" is corrected to the height axis.) -/
theorem C6_north_pole_flip (cfg : ConvConfig) (wt : ConvWeights)
    (act : Int → Int) (inp : Fin 6 → CTensor) :
    csConvCall cfg wt act inp 5 =
      CTensor.map act
        (if cfg.flipNorthPole then
          (convFace cfg (inp 5).revRows
            (if cfg.independentNorthPole then wt.northPoleKernel
              else wt.polarKernel)
            (if cfg.independentNorthPole then wt.northPoleBias
              else wt.polarBias)).revRows
         else
          convFace cfg (inp 5)
            (if cfg.independentNorthPole then wt.northPoleKernel
              else wt.polarKernel)
            (if cfg.independentNorthPole then wt.northPoleBias
              else wt.polarBias)) := rfl

/-- Claim C7: each of the four equatorial outputs (faces 0 to 3) of
CubeSphereConv2D.call is exactly the plain 2D convolution of that face
alone with the equatorial kernel (plus the equatorial bias when biases
are enabled), composed with the elementwise activation — no cross-face
mixing. -/
theorem C7_equatorial_per_face (cfg : ConvConfig) (wt : ConvWeights)
    (act : Int → Int) (inp : Fin 6 → CTensor) (f : Fin 6)
    (hf : f.val < 4) :
    csConvCall cfg wt act inp f =
      CTensor.map act
        (convFace cfg (inp f) wt.equatorialKernel wt.equatorialBias) := by
  rcases f with ⟨fv, hfv⟩
  have hf4 : fv < 4 := hf
  interval_cases fv <;> rfl

/-- Witness for claim C7 at face 0 of a concrete layer. -/
theorem C7_equatorial_per_face_witness :
    (0 : Fin 6).val < 4 ∧
    csConvCall exCfgFlip exWt idAct exInp 0 =
      CTensor.map idAct
        (convFace exCfgFlip (exInp 0) exWt.equatorialKernel
          exWt.equatorialBias) :=
  ⟨by decide, C7_equatorial_per_face exCfgFlip exWt idAct exInp 0 (by decide)⟩

/-- Claim C8: the output of call has channel dimension `filters` and
spatial dimensions given by the standard valid-convolution arithmetic
(`convOutputLength`, the compute_output_shape formula), the
channels-first compute_output_shape of the worked example
(1, 2, 10, 10, 6) with a 3 x 3 kernel and 4 filters is
(1, 4, 8, 8, 6), and padding an 8 x 8 cube with halo 1 first yields the
10 x 10 faces that make the final output (1, 4, 8, 8, 6) — the
concatenated face axis keeps length 6 in face order. -/
theorem C8_output_shape :
    (∀ (cfg : ConvConfig) (wt : ConvWeights) (act : Int → Int)
        (inp : Fin 6 → CTensor) (f : Fin 6),
      1 ≤ cfg.kh → 1 ≤ cfg.kw → 1 ≤ cfg.dh → 1 ≤ cfg.dw →
      dilExt cfg.kh cfg.dh ≤ (inp f).h → dilExt cfg.kw cfg.dw ≤ (inp f).w →
      (csConvCall cfg wt act inp f).chans = cfg.filters ∧
      some ((csConvCall cfg wt act inp f).h : Int) =
        convOutputLength (some ((inp f).h : Int)) cfg.kh PaddingMode.valid
          cfg.sh cfg.dh ∧
      some ((csConvCall cfg wt act inp f).w : Int) =
        convOutputLength (some ((inp f).w : Int)) cfg.kw PaddingMode.valid
          cfg.sw cfg.dw) ∧
    computeOutputShape exCfg8 PaddingMode.valid
        (some 1, some 2, some 10, some 10, some 6) =
      (some 1, some 4, some 8, some 8, some 6) ∧
    (∀ inp : Fin 6 → Grid Nat, Square inp 8 → ∀ f : Fin 6,
      (padFace 1 inp f).h = 10 ∧ (padFace 1 inp f).w = 10) := by
  refine ⟨?_, by decide, ?_⟩
  · intro cfg wt act inp f hkh hkw hdh hdw hh hw
    obtain ⟨hc, hhh, hww⟩ := csConvCall_shape cfg wt act inp f
    have hmh : ((dilExt cfg.kh cfg.dh : Nat) : Int) =
        (cfg.kh : Int) + ((cfg.kh : Int) - 1) * ((cfg.dh : Int) - 1) := by
      unfold dilExt
      rw [Nat.cast_add, Nat.cast_mul, Nat.cast_sub hkh, Nat.cast_sub hdh]
      norm_num
    have hmw : ((dilExt cfg.kw cfg.dw : Nat) : Int) =
        (cfg.kw : Int) + ((cfg.kw : Int) - 1) * ((cfg.dw : Int) - 1) := by
      unfold dilExt
      rw [Nat.cast_add, Nat.cast_mul, Nat.cast_sub hkw, Nat.cast_sub hdw]
      norm_num
    refine ⟨hc, ?_, ?_⟩
    · rw [hhh]
      simp only [convOutputLength]
      rw [← hmh, Int.natCast_div]
      have e : ((inp f).h : Int) - (dilExt cfg.kh cfg.dh : Nat) + 1 +
          (cfg.sh : Int) - 1 = (((inp f).h + cfg.sh - dilExt cfg.kh cfg.dh
            : Nat) : Int) := by
        omega
      rw [e]
    · rw [hww]
      simp only [convOutputLength]
      rw [← hmw, Int.natCast_div]
      have e : ((inp f).w : Int) - (dilExt cfg.kw cfg.dw : Nat) + 1 +
          (cfg.sw : Int) - 1 = (((inp f).w + cfg.sw - dilExt cfg.kw cfg.dw
            : Nat) : Int) := by
        omega
      rw [e]
  · intro inp hsq f
    exact ⟨padFace_h 1 8 inp (by omega) (by omega) hsq f,
      padFace_w 1 8 inp (by omega) (by omega) hsq f⟩

/-- Witness for claim C8 at a concrete layer and input. -/
theorem C8_output_shape_witness :
    1 ≤ exCfg8.kh ∧ dilExt exCfg8.kh exCfg8.dh ≤ (exInp10 0).h ∧
    ((csConvCall exCfg8 exWt idAct exInp10 0).chans = exCfg8.filters ∧
      some ((csConvCall exCfg8 exWt idAct exInp10 0).h : Int) =
        convOutputLength (some ((exInp10 0).h : Int)) exCfg8.kh
          PaddingMode.valid exCfg8.sh exCfg8.dh ∧
      some ((csConvCall exCfg8 exWt idAct exInp10 0).w : Int) =
        convOutputLength (some ((exInp10 0).w : Int)) exCfg8.kw
          PaddingMode.valid exCfg8.sw exCfg8.dw) :=
  ⟨by decide, by decide,
   C8_output_shape.1 exCfg8 exWt idAct exInp10 0 (by decide) (by decide)
     (by decide) (by decide) (by decide) (by decide)⟩

/-- Claim C9: CubeSphereConv2D accepts a data-format argument exactly
when it normalises (lowercases, default when absent) to channels_first —
every other layout raises a ValueError at construction (channels_last is
rejected by the layer's own check, anything else already by
normalize_data_format) — and build fails exactly when the channel
dimension (index 1 of the channels-first input shape) is unresolved,
before any weight is allocated. -/
theorem C9_layout_and_build_checks :
    (∀ (v : Option String) (idf : String),
      (∃ d, convInitDataFormat v idf = Except.ok d) ↔
        strLower (v.getD idf) = "channels_first") ∧
    (∀ shape : List (Option Nat),
      (∃ c, convBuildChannelDim shape = Except.ok c) ↔
        (∃ c, shape.getD 1 none = some c)) := by
  constructor
  · intro v idf
    by_cases h1 : strLower (v.getD idf) = "channels_first"
    · simp [convInitDataFormat, normalizeDataFormat, h1]
    · by_cases h2 : strLower (v.getD idf) = "channels_last"
      · simp [convInitDataFormat, normalizeDataFormat, h1, h2]
      · simp [convInitDataFormat, normalizeDataFormat, h1, h2]
  · intro shape
    rcases hs : shape[1]? with - | val
    · simp [convBuildChannelDim, List.getD, hs]
    · cases val <;> simp [convBuildChannelDim, List.getD, hs]

/-- Witness for claim C9 at concrete arguments. -/
theorem C9_layout_and_build_checks_witness :
    (∃ d, convInitDataFormat (some "channels_first") "channels_last" =
      Except.ok d) ∧
    (∃ c, convBuildChannelDim [some 1, some 2, some 8, some 8, some 6] =
      Except.ok c) :=
  ⟨(C9_layout_and_build_checks.1 (some "channels_first")
      "channels_last").mpr (by decide),
   (C9_layout_and_build_checks.2
      [some 1, some 2, some 8, some 8, some 6]).mpr ⟨2, rfl⟩⟩
